import Mathlib

/-!
Verification development for the xfm_tck structural-connectome pipeline.

The repository is embedded shallowly:
* paths and other Python strings are modelled as `List Char` (written via
  the `.data` field of Lean string literals), so that every operation is
  an executable function over lists of characters;
* the path-manipulation helpers of the Python standard library
  (`os.path.split`, `os.path.splitext`, `os.path.join`, `os.path.abspath`,
  `os.path.normpath`) are modelled faithfully from their CPython
  (posixpath) definitions;
* `xfm_tck/utils/fileio.py`, `xfm_tck/utils/command.py` and
  `xfm_tck/utils/workdir.py` are translated function by function;
* `xfm_tck.py` (the pipeline) is translated into trace-building
  functions: every external invocation, file copy, file removal,
  directory creation and workspace teardown becomes an `Event`, and each
  stage function returns the events it emits together with the artifact
  names it computes, mirroring the source line by line.

The top-level script `xfm_tck.py` imports a legacy `utils` module
(providing a `Command` with a `cmd_list` attribute, `File` objects with a
`.file` attribute, and a `TmpDir` with `mk_tmp_dir`/`rm_tmp_dir`) that is
not part of the repository sources; the places where that module's
behaviour is needed are modelled from the specification and are marked
`Modelled from the spec:` in their doc comments.
-/

namespace XfmTck

/-- Python strings are modelled as lists of characters. -/
abbrev Str := List Char

/-! ## Python string and path primitives -/

/-- Model of the Python string method `s.endswith(suf)`: suffix test. -/
def pyEndswith (s suf : Str) : Bool :=
  suf.isSuffixOf s

/-- Model of the Python expression `pre in s` on strings: substring test. -/
def pyInStr (sub s : Str) : Bool :=
  decide (sub <:+: s)

/-- Model of the Python string method `s.startswith(pre)`: prefix test. -/
def pyStartswith (s pre : Str) : Bool :=
  pre.isPrefixOf s

/-- Model of the Python slice `s[-n:]` for positive `n` (the last `n`
characters; the whole string when `n` is at least the length). -/
def pyTakeRight (s : Str) (n : Nat) : Str :=
  s.drop (s.length - n)

/-- Model of the Python slice `s[:-n]` for positive `n` (the string with
its last `n` characters removed; empty when `n` is at least the length). -/
def pyDropRight (s : Str) (n : Nat) : Str :=
  s.take (s.length - n)

/-- Model of the Python string method `s.rfind(c)` for a single character:
index of the last occurrence, `none` when absent (Python returns -1). -/
def pyRfind (s : Str) (c : Char) : Option Nat :=
  (s.reverse.findIdx? (fun x => x = c)).map (fun j => s.length - 1 - j)

/-- Model of the decimal rendering of a natural number, as used by the
Python f-string interpolation of integer parameters. -/
def natStr (n : Nat) : Str :=
  Nat.toDigits 10 n

/-- Model of CPython `posixpath.splitext`: split off the extension that
begins at the last dot, provided that dot comes after the last slash and
is preceded (within the basename) by some non-dot character. -/
def pySplitext (p : Str) : Str × Str :=
  match pyRfind p '.' with
  | none => (p, [])
  | some d =>
    let start : Nat :=
      match pyRfind p '/' with
      | none => 0
      | some s => s + 1
    if start ≤ d ∧ ((p.drop start).take (d - start)).any (fun c => c ≠ '.') then
      (p.take d, p.drop d)
    else
      (p, [])

/-- Model of CPython `posixpath.split` (`os.path.split`): split a path at
the final slash, stripping trailing slashes from the head unless the head
consists only of slashes. -/
def pySplitPath (p : Str) : Str × Str :=
  match pyRfind p '/' with
  | none => ([], p)
  | some i =>
    let head0 := p.take (i + 1)
    let tail := p.drop (i + 1)
    let head :=
      if head0 ≠ [] ∧ head0.any (fun c => c ≠ '/') then
        (head0.reverse.dropWhile (fun c => c = '/')).reverse
      else
        head0
    (head, tail)

/-- Model of `os.path.dirname`. -/
def pyDirname (p : Str) : Str :=
  (pySplitPath p).1

/-- Model of `os.path.basename`. -/
def pyBasename (p : Str) : Str :=
  (pySplitPath p).2

/-- Model of the two-argument CPython `posixpath.join` (`os.path.join`). -/
def pyJoin (a b : Str) : Str :=
  if pyStartswith b "/".data then b
  else if a = [] ∨ pyEndswith a "/".data then a ++ b
  else a ++ "/".data ++ b

/-- Splitting a character list at every occurrence of a separator
character, as CPython `str.split` with a one-character separator does
(used by `posixpath.normpath`). -/
def splitOnChar (s : Str) (c : Char) : List Str :=
  s.foldr
    (fun ch acc =>
      if ch = c then [] :: acc
      else
        match acc with
        | [] => [[ch]]
        | h :: t => (ch :: h) :: t)
    [[]]

/-- Model of CPython `posixpath.normpath`: collapse separators, drop
single dots, resolve parent-directory components. -/
def pyNormpath (p : Str) : Str :=
  if p = [] then ".".data
  else
    let initialSlashes : Nat :=
      if pyStartswith p "/".data then
        if pyStartswith p "//".data ∧ ¬ pyStartswith p "///".data then 2 else 1
      else 0
    let comps := splitOnChar p '/'
    let newComps : List Str := comps.foldl
      (fun acc comp =>
        if comp = [] ∨ comp = ".".data then acc
        else if comp ≠ "..".data ∨ (initialSlashes = 0 ∧ acc = []) ∨
            (acc ≠ [] ∧ acc.getLast? = some "..".data) then acc ++ [comp]
        else if acc ≠ [] then acc.dropLast
        else acc)
      []
    let path := List.replicate initialSlashes '/' ++ List.intercalate "/".data newComps
    if path = [] then ".".data else path

/-- Model of CPython `posixpath.abspath`, parameterised by the current
working directory: prepend the working directory to relative paths, then
normalise. -/
def pyAbspath (cwd p : Str) : Str :=
  if pyStartswith p "/".data then pyNormpath p
  else pyNormpath (pyJoin cwd p)

end XfmTck

namespace XfmTck

/-! ## Model of xfm_tck/utils/fileio.py -/

/-- Extension resolution performed by `File.__init__`
(fileio.py lines 80-85): a given extension wins; otherwise a path ending
in `.gz` takes its last seven characters; otherwise `os.path.splitext`. -/
def fileInitExt (src : Str) (ext : Str) : Str :=
  if ext ≠ [] then ext
  else if pyEndswith src ".gz".data then pyTakeRight src 7
  else (pySplitext src).2

/-- Model of `File.file_parts` (fileio.py lines 223-240): absolutise the
stored path, split off the directory, then strip the extension — the
extension argument when given, else the stored extension field, else
whatever `os.path.splitext` infers. -/
def fileParts (cwd : Str) (src : Str) (selfExt : Str) (ext : Str) :
    Str × Str × Str :=
  let file := pyAbspath cwd src
  let ps := pySplitPath file
  let path := ps.1
  let fname := ps.2
  if ext ≠ [] then
    let f1 := pyDropRight fname ext.length
    (path, (pySplitext f1).1, ext)
  else if selfExt ≠ [] then
    let f1 := pyDropRight fname selfExt.length
    (path, (pySplitext f1).1, selfExt)
  else
    let fe := pySplitext fname
    (path, fe.1, fe.2)

/-- A `NiiFile` object: stored path and resolved extension. -/
structure NiiFileM where
  src : Str
  ext : Str
deriving DecidableEq, Repr

/-- Model of `NiiFile.__init__` (fileio.py lines 335-341): recognise
`.nii.gz` and `.nii`; any other path silently has `.nii.gz` appended. -/
def niiFileInit (src : Str) : NiiFileM :=
  if pyEndswith src ".nii.gz".data then ⟨src, ".nii.gz".data⟩
  else if pyEndswith src ".nii".data then ⟨src, ".nii".data⟩
  else ⟨src ++ ".nii.gz".data, ".nii.gz".data⟩

/-- Sibling-path derivation in the style of `DWIxfm.mask_dwi`
(xfm_tck.py lines 1376-1384) over the `File` model of fileio.py: resolve
the extension at construction, split the path into parts, and join the
directory with `stem ++ suffix ++ extension`. -/
def deriveSuffixPath (cwd src suffix : Str) : Str :=
  let e := fileInitExt src []
  let parts := fileParts cwd src e []
  pyJoin parts.1 (parts.2.1 ++ suffix ++ parts.2.2)

/-! ## Helper lemmas about the string primitives -/

theorem findIdx?_eq_none_of_all {α : Type} (p : α → Bool) (l : List α)
    (h : ∀ x ∈ l, p x = false) : l.findIdx? p = none :=
  List.findIdx?_eq_none_iff.mpr h

theorem pyRfind_append_last (a b : Str) (c : Char) (hb : c ∉ b) :
    pyRfind (a ++ c :: b) c = some a.length := by
  unfold pyRfind
  have h1 : (a ++ c :: b).reverse = b.reverse ++ c :: a.reverse := by
    simp
  rw [h1, List.findIdx?_append]
  have h2 : b.reverse.findIdx? (fun x => x = c) = none := by
    refine findIdx?_eq_none_of_all _ _ (fun x hx => ?_)
    have : x ∈ b := List.mem_reverse.mp hx
    simp only [decide_eq_false_iff_not]
    intro he
    exact hb (he ▸ this)
  have h3 : (c :: a.reverse).findIdx? (fun x => x = c) = some 0 := by
    rw [List.findIdx?_cons]
    simp
  rw [h2, h3]
  simp only [Option.none_or, Option.map_some']
  congr 1
  simp only [List.length_reverse, List.length_append, List.length_cons]
  omega

theorem take_append_cons (a b : Str) (c : Char) :
    (a ++ c :: b).take (a.length + 1) = a ++ [c] := by
  have h : a ++ c :: b = (a ++ [c]) ++ b := by simp
  have hl : (a ++ [c]).length = a.length + 1 := by simp
  rw [h, ← hl, List.take_left]

theorem drop_append_cons (a b : Str) (c : Char) :
    (a ++ c :: b).drop (a.length + 1) = b := by
  have h : a ++ c :: b = (a ++ [c]) ++ b := by simp
  have hl : (a ++ [c]).length = a.length + 1 := by simp
  rw [h, ← hl, List.drop_left]

theorem pyEndswith_false_getLast (dir : Str) (h : pyEndswith dir "/".data = false) :
    dir.getLast? ≠ some '/' := by
  intro hl
  obtain ⟨ys, hys⟩ := List.getLast?_eq_some_iff.mp hl
  rw [pyEndswith] at h
  have : "/".data.isSuffixOf dir = true := by
    rw [List.isSuffixOf_iff_suffix]
    exact ⟨ys, by rw [hys]⟩
  rw [this] at h
  exact Bool.true_eq_false.mp h

theorem rstrip_slash (dir : Str) (hne : dir ≠ [])
    (h : dir.getLast? ≠ some '/') :
    ((dir ++ ['/']).reverse.dropWhile (fun c => c = '/')).reverse = dir := by
  have h1 : (dir ++ ['/']).reverse = '/' :: dir.reverse := by simp
  rw [h1, List.dropWhile_cons]
  simp only [decide_eq_true_eq, if_pos rfl]
  cases hrev : dir.reverse with
  | nil =>
    exact absurd (by simpa using congrArg List.reverse hrev) hne
  | cons x t =>
    have hx : dir.getLast? = some x := by
      rw [List.getLast?_eq_head?_reverse, hrev]
      rfl
    have hxs : x ≠ '/' := fun he => h (he ▸ hx)
    rw [List.dropWhile_cons]
    simp only [decide_eq_true_eq, if_neg hxs]
    rw [← hrev]
    simp

theorem pySplitext_of_no_dot (s : Str) (h : '.' ∉ s) :
    pySplitext s = (s, []) := by
  unfold pySplitext
  have : pyRfind s '.' = none := by
    unfold pyRfind
    rw [findIdx?_eq_none_of_all]
    · rfl
    · intro x hx
      simp only [decide_eq_false_iff_not]
      intro he
      exact h (he ▸ List.mem_reverse.mp hx)
  rw [this]

theorem pyEndswith_append (pre suf s : Str) (h : suf <:+ s) :
    pyEndswith (pre ++ s) suf = true := by
  rw [pyEndswith, List.isSuffixOf_iff_suffix]
  exact h.trans (List.suffix_append pre s)

theorem pyTakeRight_append (pre s : Str) (he : s.length = 7) :
    pyTakeRight (pre ++ s) 7 = s := by
  rw [pyTakeRight]
  have hl : (pre ++ s).length = pre.length + 7 := by simp [he]
  rw [hl]
  have : pre.length + 7 - 7 = pre.length := by omega
  rw [this, List.drop_left]

theorem pyDropRight_append (pre s : Str) (he : s.length = 7) :
    pyDropRight (pre ++ s) 7 = pre := by
  rw [pyDropRight]
  have hl : (pre ++ s).length = pre.length + 7 := by simp [he]
  rw [hl]
  have : pre.length + 7 - 7 = pre.length := by omega
  rw [this, List.take_left]

/-! ## Claim C3 -/

/-- Splitting a path of the shape `dir/stem.nii.gz` (with a dot-free,
slash-free stem under a normalised directory) recovers the directory and
the full basename. -/
theorem pySplitPath_nii_gz (dir stem : Str)
    (h2 : '/' ∉ stem) (h4 : dir ≠ [])
    (h5 : pyEndswith dir "/".data = false) :
    pySplitPath (dir ++ '/' :: (stem ++ ".nii.gz".data)) =
      (dir, stem ++ ".nii.gz".data) := by
  have hnm : '/' ∉ stem ++ ".nii.gz".data := by
    intro hm
    rcases List.mem_append.mp hm with hs | he
    · exact h2 hs
    · revert he
      decide
  have hrfind : pyRfind (dir ++ '/' :: (stem ++ ".nii.gz".data)) '/' =
      some dir.length := pyRfind_append_last _ _ _ hnm
  have hgl : dir.getLast? ≠ some '/' := pyEndswith_false_getLast dir h5
  obtain ⟨c, t, hrev⟩ : ∃ c t, dir.reverse = c :: t := by
    cases hd : dir.reverse with
    | nil => exact absurd (by simpa using congrArg List.reverse hd) h4
    | cons c t => exact ⟨c, t, rfl⟩
  have hcl : dir.getLast? = some c := by
    rw [List.getLast?_eq_head?_reverse, hrev]; rfl
  have hc : c ≠ '/' := fun he => hgl (he ▸ hcl)
  have hcm : c ∈ dir := by
    have : c ∈ dir.reverse := by rw [hrev]; exact List.mem_cons_self c t
    exact List.mem_reverse.mp this
  unfold pySplitPath
  rw [hrfind]
  simp only
  rw [take_append_cons, drop_append_cons]
  rw [if_pos]
  · rw [rstrip_slash dir h4 hgl]
  · constructor
    · simp
    · exact List.any_eq_true.mpr ⟨c, List.mem_append.mpr (Or.inl hcm), by
        simp [hc]⟩

/-- Extension resolution of the fileio.py `File` class on a
`dir/stem.nii.gz` path yields the full multi-part extension. -/
theorem fileInitExt_nii_gz (pre : Str) :
    fileInitExt (pre ++ ".nii.gz".data) [] = ".nii.gz".data := by
  unfold fileInitExt
  rw [if_neg (by simp)]
  have hgz : pyEndswith (pre ++ ".nii.gz".data) ".gz".data = true :=
    pyEndswith_append pre ".gz".data ".nii.gz".data (by decide)
  rw [if_pos hgz]
  exact pyTakeRight_append pre ".nii.gz".data (by decide)

/-- Claim C3: for every file artifact whose path ends in the compressed
multi-part extension `.nii.gz` (written `dir/stem.nii.gz` with a
non-empty stem containing neither a slash nor a dot, under a non-empty
normalised absolute directory), the resolved extension is the full
`.nii.gz`, and deriving a sibling path by appending a semantic suffix
yields `dir/stem{suffix}.nii.gz` — the multi-part extension is preserved
and never truncated to its final component `.gz`. -/
theorem c3_suffix_preserves_multipart_ext (cwd dir stem suffix : Str)
    (h1 : stem ≠ []) (h2 : '/' ∉ stem) (h3 : '.' ∉ stem)
    (h4 : dir ≠ []) (h5 : pyEndswith dir "/".data = false)
    (h6 : pyStartswith (dir ++ "/".data ++ stem ++ ".nii.gz".data) "/".data = true)
    (h7 : pyNormpath (dir ++ "/".data ++ stem ++ ".nii.gz".data) =
      dir ++ "/".data ++ stem ++ ".nii.gz".data) :
    fileInitExt (dir ++ "/".data ++ stem ++ ".nii.gz".data) [] = ".nii.gz".data ∧
    deriveSuffixPath cwd (dir ++ "/".data ++ stem ++ ".nii.gz".data) suffix =
      dir ++ "/".data ++ stem ++ suffix ++ ".nii.gz".data := by
  have hsrc : dir ++ "/".data ++ stem ++ ".nii.gz".data =
      (dir ++ "/".data ++ stem) ++ ".nii.gz".data := by simp
  have hsrc2 : dir ++ "/".data ++ stem ++ ".nii.gz".data =
      dir ++ '/' :: (stem ++ ".nii.gz".data) := by simp
  have hext : fileInitExt (dir ++ "/".data ++ stem ++ ".nii.gz".data) [] =
      ".nii.gz".data := by
    rw [hsrc]
    exact fileInitExt_nii_gz _
  refine ⟨hext, ?_⟩
  have habs : pyAbspath cwd (dir ++ "/".data ++ stem ++ ".nii.gz".data) =
      dir ++ "/".data ++ stem ++ ".nii.gz".data := by
    unfold pyAbspath
    rw [if_pos h6, h7]
  have hsplit : pySplitPath (dir ++ "/".data ++ stem ++ ".nii.gz".data) =
      (dir, stem ++ ".nii.gz".data) := by
    rw [hsrc2]
    exact pySplitPath_nii_gz dir stem h2 h4 h5
  have hparts : fileParts cwd (dir ++ "/".data ++ stem ++ ".nii.gz".data)
      ".nii.gz".data [] = (dir, stem, ".nii.gz".data) := by
    unfold fileParts
    simp only [habs, hsplit]
    rw [if_neg (by simp), if_pos (by decide)]
    have hdrop : pyDropRight (stem ++ ".nii.gz".data) (".nii.gz".data).length =
        stem := pyDropRight_append stem ".nii.gz".data (by decide)
    rw [hdrop, pySplitext_of_no_dot stem h3]
  have hjoin : pyJoin dir (stem ++ suffix ++ ".nii.gz".data) =
      dir ++ "/".data ++ stem ++ suffix ++ ".nii.gz".data := by
    obtain ⟨c0, st, hst⟩ : ∃ c0 st, stem = c0 :: st := by
      cases hs : stem with
      | nil => exact absurd hs h1
      | cons c0 st => exact ⟨c0, st, rfl⟩
    have hc0 : c0 ≠ '/' := by
      intro he
      exact h2 (he ▸ (hst ▸ List.mem_cons_self c0 st))
    unfold pyJoin
    rw [if_neg, if_neg]
    · simp
    · simp [h4, h5]
    · rw [hst]
      unfold pyStartswith
      simp only [List.cons_append]
      intro hcon
      have := List.isPrefixOf_iff_prefix.mp hcon
      rcases this with ⟨tl, htl⟩
      have : '/' = c0 := by
        have := congrArg (fun l => l.head?) htl
        simpa using this
      exact hc0 this.symm
  unfold deriveSuffixPath
  simp only [hext, hparts, hjoin]

/-- Witness for claim C3 at the concrete artifact `/data/a.nii.gz` with
suffix `_x`: the derived sibling is `/data/a_x.nii.gz`, not `/data/a_x.gz`. -/
theorem c3_suffix_preserves_multipart_ext_witness :
    fileInitExt ("/data".data ++ "/".data ++ "a".data ++ ".nii.gz".data) [] =
      ".nii.gz".data ∧
    deriveSuffixPath "/w".data
        ("/data".data ++ "/".data ++ "a".data ++ ".nii.gz".data) "_x".data =
      "/data".data ++ "/".data ++ "a".data ++ "_x".data ++ ".nii.gz".data :=
  c3_suffix_preserves_multipart_ext "/w".data "/data".data "a".data "_x".data
    (by decide) (by decide) (by decide) (by decide) (by decide) (by decide)
    (by decide)

/-! ## Claim C9 -/

/-- Claim C9: for every input path that ends in neither `.nii` nor
`.nii.gz`, the `NiiFile` constructor silently rewrites the stored path by
appending `.nii.gz`, sets the extension field to `.nii.gz`, and therefore
returns an object whose path differs from the path the caller supplied. -/
theorem c9_niifile_rewrites_path (src : Str)
    (h1 : pyEndswith src ".nii.gz".data = false)
    (h2 : pyEndswith src ".nii".data = false) :
    (niiFileInit src).src = src ++ ".nii.gz".data ∧
    (niiFileInit src).ext = ".nii.gz".data ∧
    (niiFileInit src).src ≠ src := by
  unfold niiFileInit
  rw [if_neg (by rw [h1]; exact Bool.false_ne_true), if_neg (by rw [h2]; exact Bool.false_ne_true)]
  refine ⟨rfl, rfl, ?_⟩
  intro h
  have hlen := congrArg List.length h
  have h7 : (".nii.gz".data).length = 7 := by decide
  simp only [List.length_append, h7] at hlen
  omega

/-- Witness for claim C9 at the concrete path `file.txt`: the stored path
becomes `file.txt.nii.gz`. -/
theorem c9_niifile_rewrites_path_witness :
    (niiFileInit "file.txt".data).src = "file.txt".data ++ ".nii.gz".data ∧
    (niiFileInit "file.txt".data).ext = ".nii.gz".data ∧
    (niiFileInit "file.txt".data).src ≠ "file.txt".data :=
  c9_niifile_rewrites_path "file.txt".data (by decide) (by decide)

/-! ## Model of xfm_tck/utils/workdir.py -/

/-- The filesystem directory state is modelled as the list of existing
paths. -/
abbrev FsState := List Str

/-- Model of `shutil.rmtree(path, ignore_errors=...)`: removing an
existing directory removes the directory and everything below it; on a
missing directory the call raises unless errors are ignored. -/
def rmtree (ignoreErrors : Bool) (fs : FsState) (p : Str) :
    Except Str FsState :=
  if p ∈ fs then
    Except.ok (fs.filter (fun q => ¬ (q = p ∨ (p ++ "/".data) <+: q)))
  else if ignoreErrors then Except.ok fs
  else Except.error p

/-- Model of `WorkDir.rmdir` (workdir.py lines 101-127): when asked to
remove the parent and the parent exists, remove the parent tree with
errors ignored; otherwise if the working directory exists remove its tree
with errors ignored; otherwise do nothing. -/
def workDirRmdir (fs : FsState) (src parentDir : Str) (rmParent : Bool) :
    Except Str FsState :=
  if rmParent ∧ parentDir ∈ fs then rmtree true fs parentDir
  else if src ∈ fs then rmtree true fs src
  else Except.ok fs

/-! ## Claim C7 -/

theorem rmdir_removes_self (fs : FsState) (p : Str) (h : p ∈ fs) :
    rmtree true fs p = Except.ok (fs.filter (fun q => ¬ (q = p ∨ (p ++ "/".data) <+: q))) := by
  rw [rmtree, if_pos h]

theorem not_mem_filter_self (fs : FsState) (p : Str) :
    p ∉ fs.filter (fun q => ¬ (q = p ∨ (p ++ "/".data) <+: q)) := by
  intro hm
  have := List.mem_filter.mp hm
  simp at this

theorem not_prefix_mem_filter (fs : FsState) (p q : Str)
    (hpq : (p ++ "/".data) <+: q) :
    q ∉ fs.filter (fun x => ¬ (x = p ∨ (p ++ "/".data) <+: x)) := by
  intro hm
  have := (List.mem_filter.mp hm).2
  simp only [decide_eq_true_eq] at this
  exact this (Or.inr hpq)

/-- Claim C7: teardown of a scoped workspace is idempotent and total.
`WorkDir.rmdir` never reports an error — in particular calling it on a
workspace whose directory was never created succeeds — and applying it a
second time to the state produced by a first call leaves that state
unchanged.  The hypothesis records the class invariant set up by
`WorkDir.__init__`: `parent_dir` is the dirname of `src`, so the working
directory lies directly below its parent. -/
theorem c7_rmdir_idempotent (fs : FsState) (src parentDir name : Str)
    (rmParent : Bool)
    (hsrc : src = parentDir ++ "/".data ++ name) :
    (∃ fs', workDirRmdir fs src parentDir rmParent = Except.ok fs') ∧
    (∀ fs', workDirRmdir fs src parentDir rmParent = Except.ok fs' →
      workDirRmdir fs' src parentDir rmParent = Except.ok fs') := by
  constructor
  · unfold workDirRmdir
    by_cases h1 : rmParent ∧ parentDir ∈ fs
    · rw [if_pos h1, rmdir_removes_self fs parentDir h1.2]
      exact ⟨_, rfl⟩
    · rw [if_neg h1]
      by_cases h2 : src ∈ fs
      · rw [if_pos h2, rmdir_removes_self fs src h2]
        exact ⟨_, rfl⟩
      · rw [if_neg h2]
        exact ⟨fs, rfl⟩
  · intro fs' hfs
    unfold workDirRmdir at hfs ⊢
    by_cases h1 : rmParent ∧ parentDir ∈ fs
    · rw [if_pos h1, rmdir_removes_self fs parentDir h1.2] at hfs
      have hfs' : fs' = fs.filter
          (fun q => ¬ (q = parentDir ∨ (parentDir ++ "/".data) <+: q)) := by
        cases hfs
        rfl
      have hp : parentDir ∉ fs' := hfs' ▸ not_mem_filter_self fs parentDir
      have hs : src ∉ fs' := by
        rw [hfs']
        refine not_prefix_mem_filter fs parentDir src ?_
        rw [hsrc]
        exact ⟨name, rfl⟩
      rw [if_neg (fun hc => hp hc.2), if_neg hs]
    · rw [if_neg h1] at hfs
      by_cases h2 : src ∈ fs
      · rw [if_pos h2, rmdir_removes_self fs src h2] at hfs
        have hfs' : fs' = fs.filter
            (fun q => ¬ (q = src ∨ (src ++ "/".data) <+: q)) := by
          cases hfs
          rfl
        have hs : src ∉ fs' := hfs' ▸ not_mem_filter_self fs src
        have hpm : ¬ (rmParent ∧ parentDir ∈ fs') := by
          intro hc
          have hpf := (List.mem_filter.mp (hfs' ▸ hc.2)).1
          exact h1 ⟨hc.1, hpf⟩
        rw [if_neg hpm, if_neg hs]
      · rw [if_neg h2] at hfs
        have hfs' : fs' = fs := by
          cases hfs
          rfl
        rw [hfs']
        rw [if_neg h1, if_neg h2]

/-- Witness for claim C7: a concrete workspace `/out/work.tmp/tmp` inside
a three-entry filesystem; teardown succeeds and is idempotent, including
when repeated. -/
theorem c7_rmdir_idempotent_witness :
    (∃ fs', workDirRmdir ["/out".data, "/out/work.tmp".data,
        "/out/work.tmp/tmp".data] "/out/work.tmp/tmp".data
        "/out/work.tmp".data true = Except.ok fs') ∧
    (∀ fs', workDirRmdir ["/out".data, "/out/work.tmp".data,
        "/out/work.tmp/tmp".data] "/out/work.tmp/tmp".data
        "/out/work.tmp".data true = Except.ok fs' →
      workDirRmdir fs' "/out/work.tmp/tmp".data "/out/work.tmp".data true =
        Except.ok fs') :=
  c7_rmdir_idempotent _ _ _ "tmp".data true (by decide)

/-! ## Model of xfm_tck/utils/command.py -/

/-- An entry written to the log sink, with its severity. -/
inductive LogEv where
  | info (msg : Str)
  | debug (msg : Str)
  | error (msg : Str)
deriving DecidableEq, Repr

/-- The `RuntimeError` raised by `Command.run` on a non-zero exit status:
it carries the command line and the exit status (the Python message is
built from exactly these two values). -/
structure RunExc where
  command : Str
  returncode : Int
deriving DecidableEq, Repr

/-- An environment mapping (`os.environ` or the `env` attribute),
modelled as an association list. -/
abbrev EnvMap := List (Str × Str)

/-- Lookup in an environment mapping. -/
def envLookup (m : EnvMap) (k : Str) : Option Str :=
  (m.find? (fun kv => decide (kv.1 = k))).map (fun kv => kv.2)

/-- Model of the Python `dict.update` performed on `os.environ` itself by
`Command.run` (command.py lines 134-137): entries of `e` replace entries
of `g` with the same key and new entries are appended. -/
def envUpdate (g e : EnvMap) : EnvMap :=
  g.filter (fun kv => decide (kv.1 ∉ e.map Prod.fst)) ++ e

/-- The outcome of one `Command.run` invocation: the log entries emitted,
the process-global environment after the call (command.py assigns
`merged_env = os.environ` and then calls `update` on it, mutating the
global mapping in place — there is no copy), and either the returned
triple `(returncode, stdout, stderr)` or the raised `RuntimeError`. -/
structure CmdOutcome where
  logs : List LogEv
  environ : EnvMap
  result : Except RunExc (Int × Option Str × Option Str)
deriving Repr

/-- Model of `Command.run` (command.py lines 81-170).  `command` is the
command string; `env` the optional extra environment; `osEnviron` the
process-global environment at call time; `logGiven` whether a log sink
was passed; `returncode` the exit status of the spawned child process;
`stdout` the optional output-file argument.  The body mirrors the source:
log the invocation at debug or info severity, return early on a dry run
with a log, merge `env` into the global environment, run the process,
resolve the stdout/stderr capture files, then on a non-zero status log an
error (when a log sink is given) and raise unless `raise_exc` is false. -/
def commandRun (command : Str) (env : Option EnvMap) (osEnviron : EnvMap)
    (logGiven debug dryrun : Bool) (stdout : Option Str)
    (raiseExc : Bool) (returncode : Int) (cwd : Str) : CmdOutcome :=
  let logs1 : List LogEv :=
    if logGiven ∧ debug then [LogEv.debug ("Running:\t".data ++ command)]
    else if logGiven then [LogEv.info ("Running:\t".data ++ command)]
    else []
  if logGiven ∧ dryrun then
    ⟨logs1 ++ [LogEv.info "Performing command as a dry run.".data],
      osEnviron, Except.ok (0, none, none)⟩
  else
    let mergedEnv : EnvMap :=
      match env with
      | none => osEnviron
      | some e => envUpdate osEnviron e
    let stdoutRes : Option Str := stdout.map (fun f => pyAbspath cwd f)
    let stderrRes : Option Str :=
      stdout.map (fun f => pyAbspath cwd ((pySplitext f).1 ++ ".err".data))
    let logs2 := logs1 ++
      (if returncode ≠ 0 ∧ logGiven then
        [LogEv.error ("Failed:\t".data ++ command)]
      else [])
    if returncode ≠ 0 ∧ raiseExc then
      ⟨logs2, mergedEnv, Except.error ⟨command, returncode⟩⟩
    else
      ⟨logs2, mergedEnv, Except.ok (returncode, stdoutRes, stderrRes)⟩

/-! ## Claim C6 -/

/-- Claim C6: for every (non-dry-run) invocation through `Command.run`,
if the child exit status is non-zero then the failure is recorded to the
log sink at error severity whenever a log sink is given, and unless
failure-raising is suppressed with `raise_exc=False` a `RuntimeError`
carrying the command line and the exit status is raised (with
`raise_exc=False` the status triple is returned instead); if the exit
status is zero no exception is raised and the first component of the
returned triple is the zero status itself, so callers need not re-check
it. -/
theorem c6_run_error_policy (command : Str) (env : Option EnvMap)
    (osEnviron : EnvMap) (logGiven debug dryrun : Bool) (stdout : Option Str)
    (raiseExc : Bool) (returncode : Int) (cwd : Str)
    (hdry : dryrun = false) :
    (returncode ≠ 0 →
      (logGiven = true →
        LogEv.error ("Failed:\t".data ++ command) ∈
          (commandRun command env osEnviron logGiven debug dryrun stdout
            raiseExc returncode cwd).logs) ∧
      (raiseExc = true →
        (commandRun command env osEnviron logGiven debug dryrun stdout
          raiseExc returncode cwd).result =
          Except.error ⟨command, returncode⟩) ∧
      (raiseExc = false →
        ∃ so se, (commandRun command env osEnviron logGiven debug dryrun stdout
          raiseExc returncode cwd).result = Except.ok (returncode, so, se))) ∧
    (returncode = 0 →
      ∃ so se, (commandRun command env osEnviron logGiven debug dryrun stdout
        raiseExc returncode cwd).result = Except.ok (0, so, se)) := by
  subst hdry
  unfold commandRun
  rw [if_neg (by simp)]
  constructor
  · intro hrc
    refine ⟨?_, ?_, ?_⟩
    · intro hlog
      by_cases hre : returncode ≠ 0 ∧ raiseExc
      · rw [if_pos hre]
        simp only [List.mem_append]
        right
        rw [if_pos ⟨hrc, hlog⟩]
        exact List.mem_cons_self _ _
      · rw [if_neg hre]
        simp only [List.mem_append]
        right
        rw [if_pos ⟨hrc, hlog⟩]
        exact List.mem_cons_self _ _
    · intro hra
      rw [if_pos ⟨hrc, hra⟩]
    · intro hra
      rw [if_neg (by simp [hra])]
      exact ⟨_, _, rfl⟩
  · intro hrc
    rw [if_neg (by simp [hrc])]
    exact ⟨_, _, by rw [hrc]⟩

/-- Witness for claim C6 at a concrete failing invocation (`flirt ...`
with exit status 1, a log sink given, raising enabled). -/
theorem c6_run_error_policy_witness :
    ((1 : Int) ≠ 0 →
      ((true : Bool) = true →
        LogEv.error ("Failed:\t".data ++ "flirt -in a -ref b".data) ∈
          (commandRun "flirt -in a -ref b".data none [] true false false none
            true 1 "/w".data).logs) ∧
      ((true : Bool) = true →
        (commandRun "flirt -in a -ref b".data none [] true false false none
          true 1 "/w".data).result =
          Except.error ⟨"flirt -in a -ref b".data, 1⟩) ∧
      ((true : Bool) = false →
        ∃ so se, (commandRun "flirt -in a -ref b".data none [] true false false
          none true 1 "/w".data).result = Except.ok (1, so, se))) ∧
    ((1 : Int) = 0 →
      ∃ so se, (commandRun "flirt -in a -ref b".data none [] true false false
        none true 1 "/w".data).result = Except.ok (0, so, se)) :=
  c6_run_error_policy "flirt -in a -ref b".data none [] true false false none
    true 1 "/w".data rfl

/-! ## Claim C10 -/

theorem envLookup_update_of_mem (g e : EnvMap) (k : Str) (v : Str)
    (h : envLookup e k = some v) :
    envLookup (envUpdate g e) k = some v := by
  unfold envLookup at h
  unfold envLookup envUpdate
  rw [List.find?_append]
  have hk : k ∈ e.map Prod.fst := by
    rcases hf : e.find? (fun kv => decide (kv.1 = k)) with _ | kv
    · rw [hf] at h
      exact absurd h (by simp)
    · have := List.find?_some hf
      have hm := List.mem_of_find?_eq_some hf
      simp only [decide_eq_true_eq] at this
      exact this ▸ List.mem_map.mpr ⟨kv, hm, rfl⟩
  have hnone : (g.filter (fun kv => decide (kv.1 ∉ e.map Prod.fst))).find?
      (fun kv => decide (kv.1 = k)) = none := by
    rw [List.find?_eq_none]
    intro kv hkv
    have hfk := (List.mem_filter.mp hkv).2
    simp only [decide_eq_true_eq] at hfk ⊢
    intro he
    exact hfk (he ▸ hk)
  rw [hnone, Option.none_or]
  exact h

/-- Claim C10: a non-None `env` dictionary passed to `Command.run` is
merged into the process-global environment mapping itself (the source
aliases `merged_env = os.environ` and mutates it with `update`), so on a
non-dry-run invocation the global environment after the call is the
merged mapping; a subsequent invocation in the same process that passes
no `env` therefore still sees every binding of the earlier `env`, rather
than the binding being scoped to the single invocation. -/
theorem c10_env_mutates_global (command1 command2 : Str) (e : EnvMap)
    (osEnviron : EnvMap) (k v : Str) (cwd : Str)
    (hkv : envLookup e k = some v) (rc1 rc2 : Int) :
    (commandRun command1 (some e) osEnviron false false false none true rc1
      cwd).environ = envUpdate osEnviron e ∧
    envLookup
      (commandRun command2 none
        ((commandRun command1 (some e) osEnviron false false false none true
          rc1 cwd).environ)
        false false false none true rc2 cwd).environ k = some v := by
  have h1 : (commandRun command1 (some e) osEnviron false false false none
      true rc1 cwd).environ = envUpdate osEnviron e := by
    unfold commandRun
    rw [if_neg (by simp)]
    by_cases hre : rc1 ≠ 0 ∧ (true : Bool)
    · rw [if_pos hre]
    · rw [if_neg hre]
  refine ⟨h1, ?_⟩
  have h2 : ∀ g : EnvMap, (commandRun command2 none g false false false none
      true rc2 cwd).environ = g := by
    intro g
    unfold commandRun
    rw [if_neg (by simp)]
    by_cases hre : rc2 ≠ 0 ∧ (true : Bool)
    · rw [if_pos hre]
    · rw [if_neg hre]
  rw [h2, h1]
  exact envLookup_update_of_mem osEnviron e k v hkv

/-- Witness for claim C10: setting `FSLDIR=/opt/fsl` in the first
invocation leaves it visible in the global environment seen by a second
invocation that passes no environment. -/
theorem c10_env_mutates_global_witness :
    (commandRun "flirt".data (some [("FSLDIR".data, "/opt/fsl".data)])
      [("PATH".data, "/bin".data)] false false false none true 0
      "/w".data).environ =
      envUpdate [("PATH".data, "/bin".data)]
        [("FSLDIR".data, "/opt/fsl".data)] ∧
    envLookup
      (commandRun "fnirt".data none
        ((commandRun "flirt".data (some [("FSLDIR".data, "/opt/fsl".data)])
          [("PATH".data, "/bin".data)] false false false none true 0
          "/w".data).environ)
        false false false none true 0 "/w".data).environ "FSLDIR".data =
      some "/opt/fsl".data :=
  c10_env_mutates_global "flirt".data "fnirt".data
    [("FSLDIR".data, "/opt/fsl".data)] [("PATH".data, "/bin".data)]
    "FSLDIR".data "/opt/fsl".data "/w".data (by decide) 0 0


end XfmTck
namespace XfmTck

/-! ## Trace model of the xfm_tck.py pipeline

Each stage of the pipeline is translated into a function that computes
the artifact names exactly as the source does and returns the list of
`Event`s it performs: external invocations (with the declared output
files of the invoked tool, per the §6 external-interface contract), file
copies, file removals, directory creations and workspace teardowns. -/

/-- One observable action of the pipeline. -/
inductive Event where
  | mkdirp (dir : Str)
  | copyFile (src dst : Str)
  | run (cmd : List Str) (outs : List Str)
  | removeFile (f : Str)
  | teardown (dir : Str) (rmParent : Bool)
  | logError (cmd : List Str) (code : Int)
deriving DecidableEq, Repr

/-- Modelled from the spec: artifact naming of the legacy `utils` module
imported by xfm_tck.py (missing from the sources).  Per §4.1 the naming
model splits an artifact into directory, stem and resolved extension,
where the stem is the absolutised basename with the resolved extension
field stripped by length (as the repository File.file_parts also does). -/
def artifactParts (cwd src ext : Str) : Str × Str × Str :=
  let file := pyAbspath cwd src
  let ps := pySplitPath file
  (ps.1, pyDropRight ps.2 ext.length, ext)

/-- A `Mif` object of `ReconMRtrix.Mif`: current file path plus the
extension field recorded at construction. -/
structure MifM where
  file : Str
  ext : Str
deriving DecidableEq, Repr

/-- Model of `ReconMRtrix.Mif.__init__` (xfm_tck.py lines 430-470): the
extension field records the last 7 (for `.gz` inputs) or 4 characters of
the incoming name, and the stored path swaps that tail for `.mif` or
`.mif.gz`. -/
def mifInit (file : Str) (gzip : Bool) : MifM :=
  if pyInStr ".gz".data file then
    if gzip then ⟨pyDropRight file 7 ++ ".mif.gz".data, pyTakeRight file 7⟩
    else ⟨pyDropRight file 7 ++ ".mif".data, pyTakeRight file 7⟩
  else
    if gzip then ⟨pyDropRight file 4 ++ ".mif.gz".data, pyTakeRight file 4⟩
    else ⟨pyDropRight file 4 ++ ".mif".data, pyTakeRight file 4⟩

/-- View a legacy NiiFile object through the duck-typed `Mif` interface
(only the `.file` path and `file_parts` are used by `mr_upsample`). -/
def mifOfNii (n : NiiFileM) : MifM :=
  ⟨n.src, n.ext⟩

/-- Modelled from the spec: the legacy `TmpDir` of the missing `utils`
module allocates `src/tmp_dir_<random>` under the given parent (§4.2 and
the §6 persisted-state layout, matching tempdir.py), optionally anchored
at the current working directory. -/
def tmpDirPath (cwd src : Str) (useCwd : Bool) (rand : Str) : Str :=
  let s := pyJoin src ("tmp_dir_".data ++ rand)
  if useCwd then pyJoin cwd s else s

/-- Modelled from the spec: the legacy `TmpDir.TmpFile` places a named
temporary file inside the temporary directory (§4.2 staging). -/
def tmpFilePath (tmpDir name : Str) : Str :=
  pyJoin tmpDir name

/-- The state of a `DWIxfm` object after `__init__`
(xfm_tck.py lines 1301-1350). -/
structure DWIxfmM where
  dwiFile : NiiFileM
  dwiBval : Str
  dwiBvec : Str
  dwiJson : Str
  template : NiiFileM
  templateBrain : NiiFileM
  labels : NiiFileM
deriving DecidableEq, Repr

/-- Model of `DWIxfm.__init__`: wrap the imaging inputs in NiiFile
objects and keep the gradient and sidecar paths. -/
def dwiXfmInit (dwiFile bval bvec template templateBrain labels json : Str) :
    DWIxfmM :=
  ⟨niiFileInit dwiFile, bval, bvec, json, niiFileInit template,
    niiFileInit templateBrain, niiFileInit labels⟩

/-- The state of a `ReconMRtrix` object after `__init__`
(xfm_tck.py lines 375-420); an absent JSON sidecar is the empty string. -/
structure ReconM where
  niiFile : NiiFileM
  bval : Str
  bvec : Str
  jsonFile : Str
deriving DecidableEq, Repr

/-- Model of `ReconMRtrix.nifti_to_mif` (xfm_tck.py lines 472-511):
convert the NIFTI DWI plus gradients (and optional sidecar) into a MIF
file named after the absolute DWI path. -/
structure NiftiToMifOut where
  events : List Event
  mif : MifM
  cmd : List Str
deriving Repr

def niftiToMif (cwd : Str) (r : ReconM) (force gzip : Bool) : NiftiToMifOut :=
  let mifFile := mifInit (pyAbspath cwd r.niiFile.src) gzip
  let cmd : List Str :=
    ["mrconvert".data]
    ++ (if force then ["-force".data] else [])
    ++ (if r.jsonFile ≠ [] then ["-json_import".data, r.jsonFile] else [])
    ++ ["-fslgrad".data, r.bvec, r.bval, r.niiFile.src, mifFile.file]
  ⟨[Event.run cmd [mifFile.file]], mifFile, cmd⟩

/-- Model of `ReconMRtrix.estimate_response` (xfm_tck.py lines 513-569):
three response-function text files named after the DWI stem. -/
structure EstimateResponseOut where
  events : List Event
  wmRes : Str
  gmRes : Str
  csfRes : Str
deriving Repr

def estimateResponse (cwd : Str) (r : ReconM) (mif : MifM) (force : Bool) :
    EstimateResponseOut :=
  let parts := artifactParts cwd r.niiFile.src r.niiFile.ext
  let wm := pyJoin parts.1 (parts.2.1 ++ "_response_wm.txt".data)
  let gm := pyJoin parts.1 (parts.2.1 ++ "_response_gm.txt".data)
  let csf := pyJoin parts.1 (parts.2.1 ++ "_response_csf.txt".data)
  let cmd : List Str :=
    ["dwi2response".data]
    ++ (if force then ["-force".data] else [])
    ++ ["dhollander".data, mif.file, wm, gm, csf]
  ⟨[Event.run cmd [wm, gm, csf]], wm, gm, csf⟩

/-- Model of `ReconMRtrix.mr_upsample` (xfm_tck.py lines 571-653):
resample to the requested voxel size with `mrresize` when available,
falling back to `mrgrid`; both variants pass the interpolation method
when one is given. -/
structure UpsampleOut where
  events : List Event
  mif : MifM
  cmd : List Str
deriving Repr

def mrUpsample (cwd : Str) (mif : MifM) (vox : Str) (interp : Str)
    (gzip : Bool) (mrresizeAvail : Bool) : UpsampleOut :=
  let ge : Bool × Str :=
    if pyInStr ".mif".data mif.file then
      if pyInStr ".gz".data mif.file then (true, ".mif.gz".data)
      else (gzip, ".mif".data)
    else if pyInStr ".nii".data mif.file then
      if pyInStr ".gz".data mif.file then (true, ".nii.gz".data)
      else (gzip, ".nii".data)
    else (gzip, [])
  let parts := artifactParts cwd mif.file ge.2
  let upName := pyJoin parts.1 (parts.2.1 ++ "_upsampled".data ++ ".mif".data)
  let up := mifInit upName ge.1
  let cmd : List Str :=
    if mrresizeAvail then
      ["mrresize".data, mif.file, "-vox".data, vox, up.file]
      ++ (if interp ≠ [] then ["-interp".data, interp] else [])
    else
      ["mrgrid".data, mif.file, "regrid".data, up.file, "-voxel".data, vox]
      ++ (if interp ≠ [] then ["-interp".data, interp] else [])
  ⟨[Event.run cmd [up.file]], up, cmd⟩

/-- Model of `ReconMRtrix.create_mask` (xfm_tck.py lines 655-761):
extract and average the b-zero volumes inside a scratch temporary
directory, run brain extraction, convert the results back to MIF, and —
when cleanup is requested — tear the scratch directory down before
returning. -/
structure CreateMaskOut where
  events : List Event
  maskMif : MifM
  brainMif : MifM
  headMif : MifM
deriving Repr

def createMask (cwd : Str) (r : ReconM) (mif : MifM) (fracInt : Str)
    (gzip cleanup : Bool) (rand : Str) : CreateMaskOut :=
  let partsN := artifactParts cwd r.niiFile.src r.niiFile.ext
  let path := partsN.1
  let uext := partsN.2.2
  let partsM := artifactParts cwd mif.file mif.ext
  let filename := partsM.2.1
  let ext := partsM.2.2
  let gzip2 := if pyInStr ".gz".data mif.file then true else gzip
  let fileHead := filename ++ "_head".data
  let filename2 := filename ++ "_brain".data
  let fileMask := filename2 ++ "_mask".data
  let brainMif := mifInit (pyJoin path (filename2 ++ ext)) gzip2
  let maskMif := mifInit (pyJoin path (fileMask ++ ext)) gzip2
  let headMif := mifInit (pyJoin path (fileHead ++ ext)) gzip2
  let workDir := tmpDirPath cwd path false rand
  let tmpB0s := tmpFilePath workDir ("tmp_B0s".data ++ uext)
  let tmpB0 := tmpFilePath workDir ("tmp_B0".data ++ uext)
  let tmpMask := tmpFilePath workDir
    (pyDropRight tmpB0 uext.length ++ "_brain".data ++ uext)
  let betMaskFile := pyDropRight tmpMask uext.length ++ "_mask.nii.gz".data
  let cmdExtract := ["dwiextract".data, "-bzero".data, mif.file, tmpB0s]
  let cmdMerge := ["fslmaths".data, tmpB0s, "-Tmean".data, tmpB0]
  let cmdBet := ["bet".data, tmpB0, tmpMask, "-R".data, "-m".data,
    "-f".data, fracInt]
  let cmdConv1 := ["mrconvert".data, betMaskFile, maskMif.file]
  let cmdConv2 := ["mrconvert".data, tmpMask, brainMif.file]
  let cmdConv3 := ["mrconvert".data, tmpB0, headMif.file]
  let events :=
    [Event.mkdirp workDir,
     Event.run cmdExtract [tmpB0s],
     Event.run cmdMerge [tmpB0],
     Event.run cmdBet [tmpMask, betMaskFile],
     Event.run cmdConv1 [maskMif.file],
     Event.run cmdConv2 [brainMif.file],
     Event.run cmdConv3 [headMif.file]]
    ++ (if cleanup then [Event.teardown workDir false] else [])
  ⟨events, maskMif, brainMif, headMif⟩

/-- Model of `ReconMRtrix.ss3t_csd` (xfm_tck.py lines 763-841). -/
structure Ss3tOut where
  events : List Event
  wmFod : MifM
  gmTis : MifM
  csfTis : MifM
deriving Repr

def ss3tCsd (cwd : Str) (r : ReconM) (mif mask : MifM)
    (wmRes gmRes csfRes : Str) (gzip : Bool) : Ss3tOut :=
  let partsN := artifactParts cwd r.niiFile.src r.niiFile.ext
  let path := partsN.1
  let partsM := artifactParts cwd mif.file mif.ext
  let filename := partsM.2.1
  let ext := partsM.2.2
  let gzip2 := if pyInStr ".gz".data mif.file then true else gzip
  let wmFod := mifInit (pyJoin path (filename ++ "_wm_fod".data ++ ext)) gzip2
  let gmTis := mifInit (pyJoin path (filename ++ "_gm_tis".data ++ ext)) gzip2
  let csfTis := mifInit (pyJoin path (filename ++ "_csf_tis".data ++ ext)) gzip2
  let cmd := ["ss3t_csd_beta1".data, mif.file, wmRes, wmFod.file, gmRes,
    gmTis.file, csfRes, csfTis.file, "-mask".data, mask.file]
  ⟨[Event.run cmd [wmFod.file, gmTis.file, csfTis.file]], wmFod, gmTis, csfTis⟩

/-- Model of `ReconMRtrix.bias_field_correction`
(xfm_tck.py lines 843-896). -/
structure BiasOut where
  events : List Event
  wmFodNorm : MifM
  gmTisNorm : MifM
  csfTisNorm : MifM
deriving Repr

def biasFieldCorrection (cwd : Str) (r : ReconM)
    (wmFod gmTis csfTis mask : MifM) (gzip : Bool) : BiasOut :=
  let parts := artifactParts cwd r.niiFile.src r.niiFile.ext
  let path := parts.1
  let filename := parts.2.1
  let ge : Bool × Str :=
    if pyInStr ".gz".data wmFod.file then (true, ".mif.gz".data)
    else (gzip, ".mif".data)
  let wmNorm := mifInit (pyJoin path (filename ++ "_wm_fod_norm".data ++ ge.2)) ge.1
  let gmNorm := mifInit (pyJoin path (filename ++ "_gm_tis_norm".data ++ ge.2)) ge.1
  let csfNorm := mifInit (pyJoin path (filename ++ "_csf_tis_norm".data ++ ge.2)) ge.1
  let cmd := ["mtnormalise".data, wmFod.file, wmNorm.file, gmTis.file,
    gmNorm.file, csfTis.file, csfNorm.file, "-mask".data, mask.file]
  ⟨[Event.run cmd [wmNorm.file, gmNorm.file, csfNorm.file]], wmNorm, gmNorm,
    csfNorm⟩

/-- Model of `ReconMRtrix.compute_dec_map` (xfm_tck.py lines 898-955). -/
structure DecMapOut where
  events : List Event
  dec : MifM
  vf : MifM
deriving Repr

def computeDecMap (cwd : Str) (r : ReconM) (scriptsDir : Str)
    (wmFod gmTis csfTis mask : MifM) (gzip : Bool) : DecMapOut :=
  let parts := artifactParts cwd r.niiFile.src r.niiFile.ext
  let path := parts.1
  let filename := parts.2.1
  let ge : Bool × Str :=
    if pyInStr ".gz".data wmFod.file then (true, ".mif.gz".data)
    else (gzip, ".mif".data)
  let dec := mifInit (pyJoin path (filename ++ "_dec".data ++ ge.2)) ge.1
  let vf := mifInit (pyJoin path (filename ++ "_vf".data ++ ge.2)) ge.1
  let cmd1 := ["fod2dec".data, wmFod.file, dec.file, "-mask".data, mask.file]
  let cmd2 := [pyJoin scriptsDir "dwi_extra.sh".data, "--wm-fod".data,
    wmFod.file, "--gm".data, gmTis.file, "--csf".data, csfTis.file,
    "--out-vf".data, vf.file]
  ⟨[Event.run cmd1 [dec.file], Event.run cmd2 [vf.file]], dec, vf⟩

/-- Model of `ReconMRtrix.mr_tck_global` (xfm_tck.py lines 957-993). -/
structure TckGenOut where
  events : List Event
  tck : Str
  cmd : List Str
deriving Repr

def mrTckGlobal (cwd : Str) (r : ReconM) (wmFod mask : MifM)
    (streamLines : Nat) (cutoff : Str) : TckGenOut :=
  let parts := artifactParts cwd r.niiFile.src r.niiFile.ext
  let tck := pyJoin parts.1 (parts.2.1 ++ ".".data ++ natStr streamLines
    ++ ".streamlines".data ++ ".tck".data)
  let cmd := ["tckgen".data, wmFod.file, tck, "-seed_image".data, mask.file,
    "-select".data, natStr streamLines, "-cutoff".data, cutoff]
  ⟨[Event.run cmd [tck]], tck, cmd⟩

/-- Model of `ReconMRtrix.mr_tck_sift` (xfm_tck.py lines 995-1045). -/
structure TckSiftOut where
  events : List Event
  tckFilt : Str
  cmd : List Str
deriving Repr

def mrTckSift (cwd : Str) (r : ReconM) (tck : Str) (wmFod : MifM)
    (term : Option Nat) (mask : Option MifM) : TckSiftOut :=
  let parts := artifactParts cwd r.niiFile.src r.niiFile.ext
  let tckFilt :=
    match term with
    | some t => pyJoin parts.1 (parts.2.1 ++ ".".data ++ natStr t
        ++ ".streamlines.filtered".data ++ ".tck".data)
    | none => pyJoin parts.1 (parts.2.1 ++ ".streamlines.filtered".data
        ++ ".tck".data)
  let cmd := ["tcksift".data, tck, wmFod.file, tckFilt]
    ++ (match mask with
        | some m => ["-proc_mask".data, m.file]
        | none => [])
    ++ (match term with
        | some t => ["-term_number".data, natStr t]
        | none => [])
  ⟨[Event.run cmd [tckFilt]], tckFilt, cmd⟩

end XfmTck

namespace XfmTck

/-! ## Failure-aware execution and the connectome stage -/

/-- The `RuntimeError` raised by the legacy command runner: carries the
failing command line and the exit status. -/
structure CmdExc where
  cmd : List Str
  code : Int
deriving DecidableEq, Repr

/-- Threaded execution state: events so far and the pending raised
exception, if any. -/
structure ExecSt where
  events : List Event
  err : Option CmdExc
deriving DecidableEq, Repr

/-- Modelled from the spec: running one legacy `Command` with its
`cmd_list` (§4.3, matching the error policy of command.py lines 164-170
with the default `raise_exc=True`): once an exception is pending, nothing
further executes; otherwise the invocation is recorded and a non-zero
exit status logs an error and raises, aborting the rest of the routine.
The `oracle` assigns each command line its exit status. -/
def runE (oracle : List Str → Int) (t : ExecSt) (cmd : List Str)
    (outs : List Str) : ExecSt :=
  match t.err with
  | some _ => t
  | none =>
    let code := oracle cmd
    if code ≠ 0 then
      ⟨t.events ++ [Event.run cmd outs, Event.logError cmd code],
        some ⟨cmd, code⟩⟩
    else ⟨t.events ++ [Event.run cmd outs], none⟩

/-- `os.remove`, gated on no pending exception. -/
def removeFileE (t : ExecSt) (f : Str) : ExecSt :=
  match t.err with
  | some _ => t
  | none => ⟨t.events ++ [Event.removeFile f], none⟩

/-- The diffusion-metric artifact names computed by
`ReconMRtrix.compute_diff_metrics` (xfm_tck.py lines 1075-1093). -/
structure DiffMetricNames where
  tensor : MifM
  faMif : MifM
  mdMif : MifM
  adMif : MifM
  rdMif : MifM
deriving DecidableEq, Repr

def diffMetricNames (cwd : Str) (r : ReconM) (dwi : MifM) : DiffMetricNames :=
  let parts := artifactParts cwd r.niiFile.src r.niiFile.ext
  let path := parts.1
  let filename := parts.2.1
  let ext : Str :=
    if pyInStr ".gz".data dwi.file then ".mif.gz".data else ".mif".data
  ⟨mifInit (pyJoin path (filename ++ ".diff_tensor".data ++ ext)) false,
    mifInit (pyJoin path (filename ++ ".fa".data ++ ext)) false,
    mifInit (pyJoin path (filename ++ ".md".data ++ ext)) false,
    mifInit (pyJoin path (filename ++ ".ad".data ++ ext)) false,
    mifInit (pyJoin path (filename ++ ".rd".data ++ ext)) false⟩

/-- Model of `ReconMRtrix.compute_diff_metrics`
(xfm_tck.py lines 1047-1135): fit the tensor, extract the enabled metric
maps, and remove the tensor file when cleaning up. -/
def computeDiffMetricsE (oracle : List Str → Int) (t : ExecSt) (cwd : Str)
    (r : ReconM) (dwi : MifM) (mask : Option MifM)
    (fa md ad rd cleanup force : Bool) : ExecSt :=
  let n := diffMetricNames cwd r dwi
  let cmdTens := ["dwi2tensor".data, dwi.file, n.tensor.file]
    ++ (match mask with
        | some m => ["-mask".data, m.file]
        | none => [])
    ++ (if force then ["-force".data] else [])
  let metricOuts :=
    (if md then [n.mdMif.file] else [])
    ++ (if fa then [n.faMif.file] else [])
    ++ (if ad then [n.adMif.file] else [])
    ++ (if rd then [n.rdMif.file] else [])
  let cmdMetric := ["tensor2metric".data, n.tensor.file]
    ++ (if md then ["-adc".data, n.mdMif.file] else [])
    ++ (if fa then ["-fa".data, n.faMif.file] else [])
    ++ (if ad then ["-ad".data, n.adMif.file] else [])
    ++ (if rd then ["-rd".data, n.rdMif.file] else [])
  let t1 := runE oracle t cmdTens [n.tensor.file]
  let t2 := runE oracle t1 cmdMetric metricOuts
  if cleanup then removeFileE t2 n.tensor.file else t2

/-- The `tcksample` invocation of one metric-weighting pass
(xfm_tck.py lines 1243-1250). -/
def tcksampleCmd (tckF metricFile tmpMetric : Str) : List Str :=
  ["tcksample".data, tckF, metricFile, tmpMetric, "-stat_tck".data,
    "mean".data]

/-- The weighted `tck2connectome` invocation of one metric-weighting pass
(xfm_tck.py lines 1254-1268). -/
def weightedCtmCmd (tckF labelsF outF tmpMetric : Str)
    (symmetric zeroDiag force : Bool) : List Str :=
  ["tck2connectome".data, tckF, labelsF, outF, "-scale_file".data,
    tmpMetric, "-stat_edge".data, "mean".data]
  ++ (if symmetric then ["-symmetric".data] else [])
  ++ (if zeroDiag then ["-zero_diagonal".data] else [])
  ++ (if force then ["-force".data] else [])

/-- The unweighted `tck2connectome` invocation
(xfm_tck.py lines 1209-1219). -/
def unweightedCtmCmd (tckF labelsF outF : Str)
    (symmetric zeroDiag force : Bool) : List Str :=
  ["tck2connectome".data, tckF, labelsF, outF]
  ++ (if symmetric then ["-symmetric".data] else [])
  ++ (if zeroDiag then ["-zero_diagonal".data] else [])
  ++ (if force then ["-force".data] else [])

/-- One iteration of the metric-weighting loop
(xfm_tck.py lines 1241-1271): sample the per-streamline mean of the
metric into the shared scratch file, assemble the weighted connectome
from it, then eagerly remove the scratch file. -/
def weightPassE (oracle : List Str → Int) (tckF labelsF tmpMetric : Str)
    (symmetric zeroDiag force : Bool) (t : ExecSt) (pr : Str × Str) :
    ExecSt :=
  let t1 := runE oracle t (tcksampleCmd tckF pr.1 tmpMetric) [tmpMetric]
  let t2 := runE oracle t1
    (weightedCtmCmd tckF labelsF pr.2 tmpMetric symmetric zeroDiag force)
    [pr.2]
  removeFileE t2 tmpMetric

/-- Result of `ReconMRtrix.structural_connectome`. -/
structure ScOut where
  st : ExecSt
  connectome : Str
  faCon : Str
  mdCon : Str
  adCon : Str
  rdCon : Str
  tmpMetric : Str
  metricPairs : List (Str × Str)
deriving Repr

/-- Model of `ReconMRtrix.structural_connectome`
(xfm_tck.py lines 1137-1273): compute the metric maps when any weighting
flag is enabled, build the unweighted connectome, then run the
metric-weighting passes in flag order, reusing one scratch sampling file
that each pass removes before the next begins. -/
def structuralConnectomeE (oracle : List Str → Int) (cwd : Str) (r : ReconM)
    (tckF labelsF : Str) (dwi : MifM) (mask : Option MifM)
    (symmetric zeroDiag fa md ad rd cleanup force : Bool) : ScOut :=
  let parts := artifactParts cwd r.niiFile.src r.niiFile.ext
  let path := parts.1
  let filename := parts.2.1
  let connectome := pyJoin path
    (filename ++ ".structural_connectome".data ++ ".txt".data)
  let faCon := pyJoin path
    (filename ++ ".structural_connectome.fa_weighted".data ++ ".txt".data)
  let mdCon := pyJoin path
    (filename ++ ".structural_connectome.md_weighted".data ++ ".txt".data)
  let adCon := pyJoin path
    (filename ++ ".structural_connectome.ad_weighted".data ++ ".txt".data)
  let rdCon := pyJoin path
    (filename ++ ".structural_connectome.rd_weighted".data ++ ".txt".data)
  let tmpMetric := pyJoin path (filename ++ "metric.vertex.mean.csv".data)
  let n := diffMetricNames cwd r dwi
  let t0 : ExecSt := ⟨[], none⟩
  let t1 :=
    if fa ∨ md ∨ ad ∨ rd then
      computeDiffMetricsE oracle t0 cwd r dwi mask fa md ad rd cleanup force
    else t0
  let t2 := runE oracle t1
    (unweightedCtmCmd tckF labelsF connectome symmetric zeroDiag force)
    [connectome]
  let pairs : List (Str × Str) :=
    (if fa then [(n.faMif.file, faCon)] else [])
    ++ (if md then [(n.mdMif.file, mdCon)] else [])
    ++ (if ad then [(n.adMif.file, adCon)] else [])
    ++ (if rd then [(n.rdMif.file, rdCon)] else [])
  let t3 :=
    if fa ∨ md ∨ ad ∨ rd then
      pairs.foldl (weightPassE oracle tckF labelsF tmpMetric symmetric
        zeroDiag force) t2
    else t2
  ⟨t3, connectome, faCon, mdCon, adCon, rdCon, tmpMetric, pairs⟩

/-- The all-successful exit-status oracle, used for success-path traces. -/
def zeroOracle : List Str → Int := fun _ => 0

end XfmTck

namespace XfmTck

/-! ## Registration stage and orchestration -/

/-- Model of `DWIxfm.mask_dwi` (xfm_tck.py lines 1352-1417): brain
extraction of the b-zeros via `ReconMRtrix.create_mask` plus conversion
back to NIFTI and removal of the intermediate MIF files. -/
structure MaskDwiOut where
  events : List Event
  mask : NiiFileM
  brain : NiiFileM
  head : NiiFileM
deriving Repr

def maskDwi (cwd : Str) (d : DWIxfmM) (fracInt : Str) (rand : Str) :
    MaskDwiOut :=
  let parts := artifactParts cwd d.dwiFile.src d.dwiFile.ext
  let path := parts.1
  let filename := parts.2.1
  let ext := parts.2.2
  let brain := niiFileInit (pyJoin path (filename ++ "_brain".data ++ ext))
  let mask := niiFileInit (pyJoin path (filename ++ "_brain_mask".data ++ ext))
  let head := niiFileInit (pyJoin path (filename ++ "_head".data ++ ext))
  let r : ReconM := ⟨niiFileInit d.dwiFile.src, d.dwiBval, d.dwiBvec,
    d.dwiJson⟩
  let ntm := niftiToMif cwd r false false
  let cm := createMask cwd r ntm.mif fracInt false true rand
  let conv1 := ["mrconvert".data, cm.maskMif.file, mask.src]
  let conv2 := ["mrconvert".data, cm.brainMif.file, brain.src]
  let conv3 := ["mrconvert".data, cm.headMif.file, head.src]
  let events := ntm.events ++ cm.events ++
    [Event.run conv1 [mask.src],
     Event.run conv2 [brain.src],
     Event.run conv3 [head.src],
     Event.removeFile cm.maskMif.file,
     Event.removeFile cm.brainMif.file,
     Event.removeFile cm.headMif.file]
  ⟨events, mask, brain, head⟩

/-- Model of `DWIxfm.compute_linear_xfm` (xfm_tck.py lines 1419-1458):
the `flirt` invocation registering the template brain to the native
brain, with the transform matrix and image named after the requested
degrees of freedom. -/
structure LinXfmOut where
  events : List Event
  xfmMat : Str
  xfmOut : NiiFileM
  cmd : List Str
deriving Repr

def computeLinearXfm (cwd : Str) (d : DWIxfmM) (dwiBrain : NiiFileM)
    (dof : Nat) : LinXfmOut :=
  let parts := artifactParts cwd d.dwiFile.src d.dwiFile.ext
  let mat := pyJoin parts.1 (parts.2.1 ++ ".lin_xfm_".data ++ natStr dof
    ++ "_dof".data ++ ".mat".data)
  let outP := niiFileInit (pyJoin parts.1 (parts.2.1 ++ ".lin_xfm_".data
    ++ natStr dof ++ "_dof".data ++ parts.2.2))
  let cmd := ["flirt".data, "-in".data, pyAbspath cwd d.templateBrain.src,
    "-ref".data, pyAbspath cwd dwiBrain.src, "-omat".data, mat,
    "-out".data, outP.src]
  ⟨[Event.run cmd [mat, outP.src]], mat, outP, cmd⟩

/-- Model of `DWIxfm.compute_non_linear_xfm`
(xfm_tck.py lines 1460-1502): the `fnirt` invocation seeded by the linear
transform. -/
structure NonLinXfmOut where
  events : List Event
  nlOut : NiiFileM
  nlWarp : NiiFileM
  nlWpcf : NiiFileM
deriving Repr

def computeNonLinearXfm (cwd : Str) (d : DWIxfmM) (xfmMat : Str)
    (dwiHead : NiiFileM) : NonLinXfmOut :=
  let parts := artifactParts cwd d.dwiFile.src d.dwiFile.ext
  let path := parts.1
  let filename := parts.2.1
  let ext := parts.2.2
  let nlOut := niiFileInit (pyJoin path (filename ++ ".non-lin_xfm".data ++ ext))
  let nlWarp := niiFileInit (pyJoin path
    (filename ++ ".non-lin_xfm.warp_field".data ++ ext))
  let nlWpcf := niiFileInit (pyJoin path
    (filename ++ ".non-lin_xfm.warp_field_coeff".data ++ ext))
  let cmd := ["fnirt".data,
    "--in=".data ++ pyAbspath cwd d.template.src,
    "--ref=".data ++ pyAbspath cwd dwiHead.src,
    "--aff=".data ++ xfmMat,
    "--iout=".data ++ nlOut.src,
    "--fout=".data ++ nlWarp.src,
    "--cout=".data ++ nlWpcf.src]
  ⟨[Event.run cmd [nlOut.src, nlWarp.src, nlWpcf.src]], nlOut, nlWarp, nlWpcf⟩

/-- Model of `DWIxfm.applywarp` (xfm_tck.py lines 1504-1558): apply the
non-linear warp to the atlas labels, with the configured interpolation
method passed on the command line. -/
structure ApplywarpOut where
  events : List Event
  out : NiiFileM
  cmd : List Str
deriving Repr

def applywarpM (cwd : Str) (d : DWIxfmM) (dwiHead nonLinWarp : NiiFileM)
    (interp : Str) (rel : Bool) (premat : Option Str) : ApplywarpOut :=
  let parts := artifactParts cwd d.dwiFile.src d.dwiFile.ext
  let outP := niiFileInit (pyJoin parts.1
    (parts.2.1 ++ ".labels.non-linear".data ++ parts.2.2))
  let cmd := ["applywarp".data,
    "--in=".data ++ pyAbspath cwd d.labels.src,
    "--ref=".data ++ pyAbspath cwd dwiHead.src,
    "--warp=".data ++ pyAbspath cwd nonLinWarp.src,
    "--out=".data ++ outP.src]
    ++ (match premat with
        | some p => ["--premat=".data ++ pyAbspath cwd p]
        | none => [])
    ++ (if interp ≠ [] then ["--interp=".data ++ interp] else [])
    ++ (if rel then ["--rel".data] else ["--abs".data])
  ⟨[Event.run cmd [outP.src]], outP, cmd⟩

/-- Model of `compute_xfm` (xfm_tck.py lines 1560-1645): stage the inputs
into a fresh temporary workspace, mask the DWI, compute the linear
transform — invoked with the literal `dof=12` at line 1633 — then the
non-linear transform, and warp the labels with nearest-neighbour
interpolation. -/
structure ComputeXfmOut where
  events : List Event
  labelsNative : NiiFileM
  nlOut : NiiFileM
  linStep : LinXfmOut
  warpStep : ApplywarpOut
  workTmp : Str
deriving Repr

def computeXfm (cwd : Str)
    (dwi bval bvec template templateBrain labels json : Str)
    (workDir : Option Str) (useCwd : Bool) (dof : Nat) (fracInt : Str)
    (randXfm randMask : Str) : ComputeXfmOut :=
  let wdu : Str × Bool :=
    match workDir with
    | some w => (w, useCwd)
    | none => ("work.tmp".data, true)
  let workTmp := tmpDirPath cwd wdu.1 wdu.2 randXfm
  let fTmp := tmpFilePath workTmp (pyBasename dwi)
  let bTmp := tmpFilePath workTmp (pyBasename bval)
  let eTmp := tmpFilePath workTmp (pyBasename bvec)
  let jTmp := tmpFilePath workTmp (pyBasename json)
  let copies := [Event.mkdirp workTmp,
    Event.copyFile dwi fTmp,
    Event.copyFile bval bTmp,
    Event.copyFile bvec eTmp,
    Event.copyFile json jTmp]
  let d := dwiXfmInit fTmp bTmp eTmp template templateBrain labels jTmp
  let md := maskDwi cwd d fracInt randMask
  let lin := computeLinearXfm cwd d md.brain 12
  let nl := computeNonLinearXfm cwd d lin.xfmMat md.head
  let aw := applywarpM cwd d md.head nl.nlWarp "nn".data true none
  ⟨copies ++ md.events ++ lin.events ++ nl.events ++ aw.events,
    aw.out, nl.nlOut, lin, aw, workTmp⟩

/-- Result of `create_structural_connectome`. -/
structure CscOut where
  events : List Event
  connectome : Str
  faCon : Str
  mdCon : Str
  adCon : Str
  rdCon : Str
  labelsNative : NiiFileM
  head : MifM
  workTmp : Str
  xfm : ComputeXfmOut
  dwiUpsample : UpsampleOut
  labelsUpsample : UpsampleOut
  sc : ScOut
deriving Repr

/-- Model of `create_structural_connectome` (xfm_tck.py lines 1647-1844)
on the success path: stage inputs into the workspace, run the
registration stage, convert, estimate responses, upsample DWI (smooth
default interpolation) and labels (nearest-neighbour), mask, deconvolve,
bias-correct, compute QC maps, run tractography (optionally filtered)
and assemble the connectomes.  A JSON sidecar is required (the source
dereferences `j_tmp.file` unconditionally at line 1754). -/
def createStructuralConnectome (cwd : Str)
    (dwi bval bvec template templateBrain labels json : Str)
    (workDir : Option Str) (useCwd force gzip : Bool)
    (fracInt vox cutoff : Str) (dof : Nat) (streamLines : Nat)
    (filterTracts : Bool) (term : Option Nat)
    (symmetric zeroDiag fa md ad rd cleanup : Bool)
    (scriptsDir : Str) (mrresizeAvail : Bool)
    (randCsc randXfm randMask1 randMask2 : Str) : CscOut :=
  let wdu : Str × Bool :=
    match workDir with
    | some w => (w, useCwd)
    | none => ("work.tmp".data, true)
  let workTmp := tmpDirPath cwd wdu.1 wdu.2 randCsc
  let fTmp := tmpFilePath workTmp (pyBasename dwi)
  let bTmp := tmpFilePath workTmp (pyBasename bval)
  let eTmp := tmpFilePath workTmp (pyBasename bvec)
  let jTmp := tmpFilePath workTmp (pyBasename json)
  let copies := [Event.mkdirp workTmp,
    Event.copyFile dwi fTmp,
    Event.copyFile bval bTmp,
    Event.copyFile bvec eTmp,
    Event.copyFile json jTmp]
  let xfm := computeXfm cwd fTmp bTmp eTmp template templateBrain labels
    jTmp (some wdu.1) wdu.2 dof fracInt randXfm randMask1
  let r : ReconM := ⟨niiFileInit fTmp, bTmp, eTmp, jTmp⟩
  let ntm := niftiToMif cwd r force gzip
  let er := estimateResponse cwd r ntm.mif force
  let upDwi := mrUpsample cwd ntm.mif vox "cubic".data false mrresizeAvail
  let upLabels := mrUpsample cwd (mifOfNii xfm.labelsNative) vox
    "nearest".data false mrresizeAvail
  let cm := createMask cwd r upDwi.mif fracInt false true randMask2
  let csd := ss3tCsd cwd r upDwi.mif cm.maskMif er.wmRes er.gmRes er.csfRes
    false
  let bias := biasFieldCorrection cwd r csd.wmFod csd.gmTis csd.csfTis
    cm.maskMif false
  let dec := computeDecMap cwd r scriptsDir bias.wmFodNorm bias.gmTisNorm
    bias.csfTisNorm cm.maskMif false
  let tg := mrTckGlobal cwd r bias.wmFodNorm cm.maskMif streamLines cutoff
  let tckPart : List Event × Str :=
    if filterTracts then
      let ts := mrTckSift cwd r tg.tck bias.wmFodNorm term (some cm.maskMif)
      (tg.events ++ ts.events, ts.tckFilt)
    else (tg.events, tg.tck)
  let sc := structuralConnectomeE zeroOracle cwd r tckPart.2
    upLabels.mif.file upDwi.mif (some cm.maskMif) symmetric zeroDiag
    fa md ad rd cleanup force
  let events := copies ++ xfm.events ++ ntm.events ++ er.events
    ++ upDwi.events ++ upLabels.events ++ cm.events ++ csd.events
    ++ bias.events ++ dec.events ++ tckPart.1 ++ sc.st.events
  ⟨events, sc.connectome, sc.faCon, sc.mdCon, sc.adCon, sc.rdCon,
    xfm.labelsNative, cm.headMif, workTmp, xfm, upDwi, upLabels, sc⟩

/-- Model of `main` (xfm_tck.py lines 33-340) after argument parsing, on
the success path: derive the cleanup policy from the no-cleanup flag,
run the pipeline with `{out_dir}/work.tmp` as workspace parent (the
process changes directory to `out_dir` first, so it is the working
directory), copy the final artifacts to the output directory — a
weighted connectome file exists exactly when its flag was enabled
(modelled from the spec for the `os.path.exists` checks of lines
321-335) — and finally, when cleanup is enabled, tear down the workspace
together with its `work.tmp` parent (lines 337-338), exactly once. -/
def mainEvents (outDir : Str)
    (dwi bval bvec template templateBrain labels json : Str)
    (useCwd force gzip : Bool) (fracInt vox cutoff : Str)
    (dof streamLines : Nat) (filterTracts : Bool) (term : Option Nat)
    (symmetric zeroDiag fa md ad rd : Bool) (noCleanup : Bool)
    (scriptsDir : Str) (mrresizeAvail : Bool)
    (randCsc randXfm randMask1 randMask2 : Str) : List Event :=
  let cleanup := if noCleanup then false else true
  let workTmpDir := pyJoin outDir "work.tmp".data
  let c := createStructuralConnectome outDir dwi bval bvec template
    templateBrain labels json (some workTmpDir) useCwd force gzip fracInt
    vox cutoff dof streamLines filterTracts term symmetric zeroDiag
    fa md ad rd cleanup scriptsDir mrresizeAvail randCsc randXfm
    randMask1 randMask2
  let copies :=
    [Event.copyFile c.connectome (pyJoin outDir (pyBasename c.connectome)),
     Event.copyFile c.labelsNative.src
       (pyJoin outDir (pyBasename c.labelsNative.src)),
     Event.copyFile c.head.file (pyJoin outDir (pyBasename c.head.file))]
    ++ (if fa then
        [Event.copyFile c.faCon (pyJoin outDir (pyBasename c.faCon))] else [])
    ++ (if md then
        [Event.copyFile c.mdCon (pyJoin outDir (pyBasename c.mdCon))] else [])
    ++ (if ad then
        [Event.copyFile c.adCon (pyJoin outDir (pyBasename c.adCon))] else [])
    ++ (if rd then
        [Event.copyFile c.rdCon (pyJoin outDir (pyBasename c.rdCon))] else [])
  c.events ++ copies
    ++ (if cleanup then [Event.teardown c.workTmp true] else [])

/-- Whether an event is a workspace teardown. -/
def isTeardown : Event → Bool
  | Event.teardown _ _ => true
  | _ => false

/-- Whether an event is the pipeline-exit teardown, which removes the
workspace together with its `work.tmp` parent (`rm_parent=True`); the
scratch teardowns inside the mask stage pass `rm_parent=False`. -/
def isParentTeardown : Event → Bool
  | Event.teardown _ true => true
  | _ => false

end XfmTck

namespace XfmTck

/-! ## Claim C1 -/

/-- Claim C1: for every pipeline run, whatever degrees-of-freedom value
`dof` the configuration supplies to `compute_xfm`, the linear-registration
step is the one obtained by invoking `compute_linear_xfm` with the fixed
value 12: the step is identical to the step of a run configured with
`dof = 12`, and it equals `compute_linear_xfm` applied to the staged
inputs with the literal argument 12 (xfm_tck.py lines 1632-1633). -/
theorem c1_linear_dof_fixed_12 (cwd : Str)
    (dwi bval bvec template templateBrain labels json : Str)
    (workDir : Option Str) (useCwd : Bool) (dof : Nat)
    (fracInt randXfm randMask : Str) :
    (computeXfm cwd dwi bval bvec template templateBrain labels json
      workDir useCwd dof fracInt randXfm randMask).linStep =
    (computeXfm cwd dwi bval bvec template templateBrain labels json
      workDir useCwd 12 fracInt randXfm randMask).linStep ∧
    (computeXfm cwd dwi bval bvec template templateBrain labels json
      workDir useCwd dof fracInt randXfm randMask).linStep =
    computeLinearXfm cwd
      (dwiXfmInit
        (tmpFilePath (computeXfm cwd dwi bval bvec template templateBrain
          labels json workDir useCwd dof fracInt randXfm randMask).workTmp
          (pyBasename dwi))
        (tmpFilePath (computeXfm cwd dwi bval bvec template templateBrain
          labels json workDir useCwd dof fracInt randXfm randMask).workTmp
          (pyBasename bval))
        (tmpFilePath (computeXfm cwd dwi bval bvec template templateBrain
          labels json workDir useCwd dof fracInt randXfm randMask).workTmp
          (pyBasename bvec))
        template templateBrain labels
        (tmpFilePath (computeXfm cwd dwi bval bvec template templateBrain
          labels json workDir useCwd dof fracInt randXfm randMask).workTmp
          (pyBasename json)))
      (maskDwi cwd
        (dwiXfmInit
          (tmpFilePath (computeXfm cwd dwi bval bvec template templateBrain
            labels json workDir useCwd dof fracInt randXfm randMask).workTmp
            (pyBasename dwi))
          (tmpFilePath (computeXfm cwd dwi bval bvec template templateBrain
            labels json workDir useCwd dof fracInt randXfm randMask).workTmp
            (pyBasename bval))
          (tmpFilePath (computeXfm cwd dwi bval bvec template templateBrain
            labels json workDir useCwd dof fracInt randXfm randMask).workTmp
            (pyBasename bvec))
          template templateBrain labels
          (tmpFilePath (computeXfm cwd dwi bval bvec template templateBrain
            labels json workDir useCwd dof fracInt randXfm randMask).workTmp
            (pyBasename json)))
        fracInt randMask).brain 12 :=
  ⟨rfl, rfl⟩

/-! ## Claim C8 -/

theorem applywarp_cmd_has_interp (cwd : Str) (d : DWIxfmM)
    (dwiHead nonLinWarp : NiiFileM) (interp : Str) (rel : Bool)
    (premat : Option Str) (h : interp ≠ []) :
    ("--interp=".data ++ interp) ∈
      (applywarpM cwd d dwiHead nonLinWarp interp rel premat).cmd := by
  unfold applywarpM
  simp only [if_pos h]
  simp [List.mem_append]

theorem upsample_cmd_has_interp (cwd : Str) (mif : MifM) (vox interp : Str)
    (gzip mrresizeAvail : Bool) (h : interp ≠ []) :
    ["-interp".data, interp] <:+
      (mrUpsample cwd mif vox interp gzip mrresizeAvail).cmd := by
  unfold mrUpsample
  cases mrresizeAvail <;> simp only [if_pos h, if_neg, Bool.false_eq_true,
    if_false, if_true] <;> exact List.suffix_append _ _

theorem computeXfm_warp_run_mem (cwd : Str)
    (dwi bval bvec template templateBrain labels json : Str)
    (workDir : Option Str) (useCwd : Bool) (dof : Nat)
    (fracInt randXfm randMask : Str) :
    Event.run
      (computeXfm cwd dwi bval bvec template templateBrain labels json
        workDir useCwd dof fracInt randXfm randMask).warpStep.cmd
      [(computeXfm cwd dwi bval bvec template templateBrain labels json
        workDir useCwd dof fracInt randXfm randMask).warpStep.out.src] ∈
    (computeXfm cwd dwi bval bvec template templateBrain labels json
      workDir useCwd dof fracInt randXfm randMask).events :=
  List.mem_append_right _ (List.mem_singleton_self _)

theorem csc_warp_run_mem (cwd : Str)
    (dwi bval bvec template templateBrain labels json : Str)
    (workDir : Option Str) (useCwd force gzip : Bool)
    (fracInt vox cutoff : Str) (dof streamLines : Nat)
    (filterTracts : Bool) (term : Option Nat)
    (symmetric zeroDiag fa md ad rd cleanup : Bool)
    (scriptsDir : Str) (mrresizeAvail : Bool)
    (randCsc randXfm randMask1 randMask2 : Str) :
    Event.run
      (createStructuralConnectome cwd dwi bval bvec template templateBrain
        labels json workDir useCwd force gzip fracInt vox cutoff dof
        streamLines filterTracts term symmetric zeroDiag fa md ad rd cleanup
        scriptsDir mrresizeAvail randCsc randXfm randMask1
        randMask2).xfm.warpStep.cmd
      [(createStructuralConnectome cwd dwi bval bvec template templateBrain
        labels json workDir useCwd force gzip fracInt vox cutoff dof
        streamLines filterTracts term symmetric zeroDiag fa md ad rd cleanup
        scriptsDir mrresizeAvail randCsc randXfm randMask1
        randMask2).xfm.warpStep.out.src] ∈
    (createStructuralConnectome cwd dwi bval bvec template templateBrain
      labels json workDir useCwd force gzip fracInt vox cutoff dof
      streamLines filterTracts term symmetric zeroDiag fa md ad rd cleanup
      scriptsDir mrresizeAvail randCsc randXfm randMask1 randMask2).events :=
  List.mem_append_left _ (List.mem_append_left _ (List.mem_append_left _
    (List.mem_append_left _ (List.mem_append_left _ (List.mem_append_left _
    (List.mem_append_left _ (List.mem_append_left _ (List.mem_append_left _
    (List.mem_append_left _ (List.mem_append_right _
      (computeXfm_warp_run_mem cwd _ _ _ template templateBrain labels _
        (some _) _ dof fracInt randXfm randMask1)))))))))))

theorem csc_labels_upsample_run_mem (cwd : Str)
    (dwi bval bvec template templateBrain labels json : Str)
    (workDir : Option Str) (useCwd force gzip : Bool)
    (fracInt vox cutoff : Str) (dof streamLines : Nat)
    (filterTracts : Bool) (term : Option Nat)
    (symmetric zeroDiag fa md ad rd cleanup : Bool)
    (scriptsDir : Str) (mrresizeAvail : Bool)
    (randCsc randXfm randMask1 randMask2 : Str) :
    Event.run
      (createStructuralConnectome cwd dwi bval bvec template templateBrain
        labels json workDir useCwd force gzip fracInt vox cutoff dof
        streamLines filterTracts term symmetric zeroDiag fa md ad rd cleanup
        scriptsDir mrresizeAvail randCsc randXfm randMask1
        randMask2).labelsUpsample.cmd
      [(createStructuralConnectome cwd dwi bval bvec template templateBrain
        labels json workDir useCwd force gzip fracInt vox cutoff dof
        streamLines filterTracts term symmetric zeroDiag fa md ad rd cleanup
        scriptsDir mrresizeAvail randCsc randXfm randMask1
        randMask2).labelsUpsample.mif.file] ∈
    (createStructuralConnectome cwd dwi bval bvec template templateBrain
      labels json workDir useCwd force gzip fracInt vox cutoff dof
      streamLines filterTracts term symmetric zeroDiag fa md ad rd cleanup
      scriptsDir mrresizeAvail randCsc randXfm randMask1 randMask2).events :=
  List.mem_append_left _ (List.mem_append_left _ (List.mem_append_left _
    (List.mem_append_left _ (List.mem_append_left _ (List.mem_append_left _
    (List.mem_append_right _ (List.mem_singleton_self _)))))))

/-- Claim C8: in every pipeline run, both resampling/warping operations
applied to the integer atlas labels use nearest-neighbour interpolation:
the warp application built by `compute_xfm` passes `--interp=nn` and the
label upsampling in `create_structural_connectome` passes
`-interp nearest` on the external command line, and both invocations
occur in the pipeline trace (the warp-application and label-upsampling
run events belong to the event list, by `csc_warp_run_mem` and
`csc_labels_upsample_run_mem`). -/
theorem c8_labels_nearest_neighbour (cwd : Str)
    (dwi bval bvec template templateBrain labels json : Str)
    (workDir : Option Str) (useCwd force gzip : Bool)
    (fracInt vox cutoff : Str) (dof streamLines : Nat)
    (filterTracts : Bool) (term : Option Nat)
    (symmetric zeroDiag fa md ad rd cleanup : Bool)
    (scriptsDir : Str) (mrresizeAvail : Bool)
    (randCsc randXfm randMask1 randMask2 : Str) :
    ("--interp=".data ++ "nn".data) ∈
      (createStructuralConnectome cwd dwi bval bvec template templateBrain
        labels json workDir useCwd force gzip fracInt vox cutoff dof
        streamLines filterTracts term symmetric zeroDiag fa md ad rd
        cleanup scriptsDir mrresizeAvail randCsc randXfm randMask1
        randMask2).xfm.warpStep.cmd ∧
    ["-interp".data, "nearest".data] <:+
      (createStructuralConnectome cwd dwi bval bvec template templateBrain
        labels json workDir useCwd force gzip fracInt vox cutoff dof
        streamLines filterTracts term symmetric zeroDiag fa md ad rd
        cleanup scriptsDir mrresizeAvail randCsc randXfm randMask1
        randMask2).labelsUpsample.cmd ∧
    Event.run
      (createStructuralConnectome cwd dwi bval bvec template templateBrain
        labels json workDir useCwd force gzip fracInt vox cutoff dof
        streamLines filterTracts term symmetric zeroDiag fa md ad rd cleanup
        scriptsDir mrresizeAvail randCsc randXfm randMask1
        randMask2).xfm.warpStep.cmd
      [(createStructuralConnectome cwd dwi bval bvec template templateBrain
        labels json workDir useCwd force gzip fracInt vox cutoff dof
        streamLines filterTracts term symmetric zeroDiag fa md ad rd cleanup
        scriptsDir mrresizeAvail randCsc randXfm randMask1
        randMask2).xfm.warpStep.out.src] ∈
      (createStructuralConnectome cwd dwi bval bvec template templateBrain
        labels json workDir useCwd force gzip fracInt vox cutoff dof
        streamLines filterTracts term symmetric zeroDiag fa md ad rd cleanup
        scriptsDir mrresizeAvail randCsc randXfm randMask1 randMask2).events ∧
    Event.run
      (createStructuralConnectome cwd dwi bval bvec template templateBrain
        labels json workDir useCwd force gzip fracInt vox cutoff dof
        streamLines filterTracts term symmetric zeroDiag fa md ad rd cleanup
        scriptsDir mrresizeAvail randCsc randXfm randMask1
        randMask2).labelsUpsample.cmd
      [(createStructuralConnectome cwd dwi bval bvec template templateBrain
        labels json workDir useCwd force gzip fracInt vox cutoff dof
        streamLines filterTracts term symmetric zeroDiag fa md ad rd cleanup
        scriptsDir mrresizeAvail randCsc randXfm randMask1
        randMask2).labelsUpsample.mif.file] ∈
      (createStructuralConnectome cwd dwi bval bvec template templateBrain
        labels json workDir useCwd force gzip fracInt vox cutoff dof
        streamLines filterTracts term symmetric zeroDiag fa md ad rd cleanup
        scriptsDir mrresizeAvail randCsc randXfm randMask1 randMask2).events :=
  ⟨applywarp_cmd_has_interp _ _ _ _ _ _ _ (by decide),
   upsample_cmd_has_interp _ _ _ _ _ _ (by decide),
   csc_warp_run_mem cwd dwi bval bvec template templateBrain labels json
     workDir useCwd force gzip fracInt vox cutoff dof streamLines
     filterTracts term symmetric zeroDiag fa md ad rd cleanup scriptsDir
     mrresizeAvail randCsc randXfm randMask1 randMask2,
   csc_labels_upsample_run_mem cwd dwi bval bvec template templateBrain
     labels json workDir useCwd force gzip fracInt vox cutoff dof
     streamLines filterTracts term symmetric zeroDiag fa md ad rd cleanup
     scriptsDir mrresizeAvail randCsc randXfm randMask1 randMask2⟩

/-! ## Claim C4 -/

theorem ptFilter_if_scratch (b : Bool) (d : Str) :
    (if b then [Event.teardown d false] else []).filter isParentTeardown
      = [] := by
  cases b <;> simp [isParentTeardown]

theorem createMask_ptFilter (cwd : Str) (r : ReconM) (mif : MifM)
    (fracInt : Str) (gzip cleanup : Bool) (rand : Str) :
    (createMask cwd r mif fracInt gzip cleanup rand).events.filter
      isParentTeardown = [] := by
  unfold createMask
  simp only [List.filter_append, ptFilter_if_scratch]
  simp [isParentTeardown]

theorem maskDwi_ptFilter (cwd : Str) (d : DWIxfmM) (fracInt rand : Str) :
    (maskDwi cwd d fracInt rand).events.filter isParentTeardown = [] := by
  unfold maskDwi niftiToMif
  simp only [List.filter_append, createMask_ptFilter]
  simp [isParentTeardown]

theorem computeXfm_ptFilter (cwd : Str)
    (dwi bval bvec template templateBrain labels json : Str)
    (workDir : Option Str) (useCwd : Bool) (dof : Nat)
    (fracInt randXfm randMask : Str) :
    (computeXfm cwd dwi bval bvec template templateBrain labels json
      workDir useCwd dof fracInt randXfm randMask).events.filter
      isParentTeardown = [] := by
  unfold computeXfm computeLinearXfm computeNonLinearXfm applywarpM
  simp only [List.filter_append, maskDwi_ptFilter]
  simp [isParentTeardown]

theorem runE_ptFilter (oracle : List Str → Int) (t : ExecSt)
    (cmd : List Str) (outs : List Str) :
    (runE oracle t cmd outs).events.filter isParentTeardown =
      t.events.filter isParentTeardown := by
  unfold runE
  cases ht : t.err with
  | some e => rfl
  | none =>
    simp only
    by_cases hc : oracle cmd ≠ 0
    · rw [if_pos hc]
      simp [isParentTeardown]
    · rw [if_neg hc]
      simp [isParentTeardown]

theorem removeFileE_ptFilter (t : ExecSt) (f : Str) :
    (removeFileE t f).events.filter isParentTeardown =
      t.events.filter isParentTeardown := by
  unfold removeFileE
  cases ht : t.err with
  | some e => rfl
  | none => simp [isParentTeardown]

theorem weightPassE_ptFilter (oracle : List Str → Int)
    (tckF labelsF tmpMetric : Str) (symmetric zeroDiag force : Bool)
    (t : ExecSt) (pr : Str × Str) :
    (weightPassE oracle tckF labelsF tmpMetric symmetric zeroDiag force
      t pr).events.filter isParentTeardown =
      t.events.filter isParentTeardown := by
  unfold weightPassE
  rw [removeFileE_ptFilter, runE_ptFilter, runE_ptFilter]

theorem foldl_weightPassE_ptFilter (oracle : List Str → Int)
    (tckF labelsF tmpMetric : Str) (symmetric zeroDiag force : Bool)
    (pairs : List (Str × Str)) (t : ExecSt) :
    ((pairs.foldl (weightPassE oracle tckF labelsF tmpMetric symmetric
      zeroDiag force) t).events.filter isParentTeardown) =
      t.events.filter isParentTeardown := by
  induction pairs generalizing t with
  | nil => rfl
  | cons p ps ih =>
    rw [List.foldl_cons, ih, weightPassE_ptFilter]

theorem computeDiffMetricsE_ptFilter (oracle : List Str → Int) (t : ExecSt)
    (cwd : Str) (r : ReconM) (dwi : MifM) (mask : Option MifM)
    (fa md ad rd cleanup force : Bool) :
    (computeDiffMetricsE oracle t cwd r dwi mask fa md ad rd cleanup
      force).events.filter isParentTeardown =
      t.events.filter isParentTeardown := by
  unfold computeDiffMetricsE
  by_cases hc : cleanup
  · rw [if_pos hc, removeFileE_ptFilter, runE_ptFilter, runE_ptFilter]
  · rw [if_neg hc, runE_ptFilter, runE_ptFilter]

theorem structuralConnectomeE_ptFilter (oracle : List Str → Int) (cwd : Str)
    (r : ReconM) (tckF labelsF : Str) (dwi : MifM) (mask : Option MifM)
    (symmetric zeroDiag fa md ad rd cleanup force : Bool) :
    (structuralConnectomeE oracle cwd r tckF labelsF dwi mask symmetric
      zeroDiag fa md ad rd cleanup force).st.events.filter
      isParentTeardown = [] := by
  unfold structuralConnectomeE
  simp only
  by_cases hf : fa ∨ md ∨ ad ∨ rd
  · rw [if_pos hf, if_pos hf, foldl_weightPassE_ptFilter, runE_ptFilter,
      computeDiffMetricsE_ptFilter]
    rfl
  · rw [if_neg hf, if_neg hf, runE_ptFilter]
    rfl

theorem csc_ptFilter (cwd : Str)
    (dwi bval bvec template templateBrain labels json : Str)
    (workDir : Option Str) (useCwd force gzip : Bool)
    (fracInt vox cutoff : Str) (dof streamLines : Nat)
    (filterTracts : Bool) (term : Option Nat)
    (symmetric zeroDiag fa md ad rd cleanup : Bool)
    (scriptsDir : Str) (mrresizeAvail : Bool)
    (randCsc randXfm randMask1 randMask2 : Str) :
    (createStructuralConnectome cwd dwi bval bvec template templateBrain
      labels json workDir useCwd force gzip fracInt vox cutoff dof
      streamLines filterTracts term symmetric zeroDiag fa md ad rd cleanup
      scriptsDir mrresizeAvail randCsc randXfm randMask1
      randMask2).events.filter isParentTeardown = [] := by
  unfold createStructuralConnectome
  simp only [List.filter_append, computeXfm_ptFilter, createMask_ptFilter,
    structuralConnectomeE_ptFilter]
  unfold niftiToMif estimateResponse mrUpsample ss3tCsd biasFieldCorrection
    computeDecMap mrTckGlobal mrTckSift
  by_cases hft : filterTracts
  · rw [if_pos hft]
    simp [isParentTeardown, List.filter_append]
  · rw [if_neg hft]
    simp [isParentTeardown, List.filter_append]

theorem ptFilter_if_copy (b : Bool) (x y : Str) :
    (if b then [Event.copyFile x y] else []).filter isParentTeardown
      = [] := by
  cases b <;> simp [isParentTeardown]

/-- Amended claim C4: on the success path the pipeline-policy teardown —
`work_tmp.rm_tmp_dir(rm_parent=True)` at xfm_tck.py lines 337-338 — is
the only teardown that removes the workspace parent: it appears exactly
once, guarded by the cleanup policy, and it is the final event of the
run.  (The claim as frozen is falsified by `c4_counterexample`: the mask
stage removes its own scratch directories mid-run, so teardown is not
invoked only at the single pipeline-exit point.) -/
theorem c4_parent_teardown_once (outDir : Str)
    (dwi bval bvec template templateBrain labels json : Str)
    (useCwd force gzip : Bool) (fracInt vox cutoff : Str)
    (dof streamLines : Nat) (filterTracts : Bool) (term : Option Nat)
    (symmetric zeroDiag fa md ad rd : Bool) (noCleanup : Bool)
    (scriptsDir : Str) (mrresizeAvail : Bool)
    (randCsc randXfm randMask1 randMask2 : Str) :
    (mainEvents outDir dwi bval bvec template templateBrain labels json
      useCwd force gzip fracInt vox cutoff dof streamLines filterTracts
      term symmetric zeroDiag fa md ad rd noCleanup scriptsDir
      mrresizeAvail randCsc randXfm randMask1 randMask2).filter
      isParentTeardown =
    (if noCleanup then [] else
      [Event.teardown
        (createStructuralConnectome outDir dwi bval bvec template
          templateBrain labels json (some (pyJoin outDir "work.tmp".data))
          useCwd force gzip fracInt vox cutoff dof streamLines filterTracts
          term symmetric zeroDiag fa md ad rd
          (if noCleanup then false else true) scriptsDir mrresizeAvail
          randCsc randXfm randMask1 randMask2).workTmp true]) ∧
    (mainEvents outDir dwi bval bvec template templateBrain labels json
      useCwd force gzip fracInt vox cutoff dof streamLines filterTracts
      term symmetric zeroDiag fa md ad rd false scriptsDir mrresizeAvail
      randCsc randXfm randMask1 randMask2).getLast? =
    some (Event.teardown
      (createStructuralConnectome outDir dwi bval bvec template
        templateBrain labels json (some (pyJoin outDir "work.tmp".data))
        useCwd force gzip fracInt vox cutoff dof streamLines filterTracts
        term symmetric zeroDiag fa md ad rd true scriptsDir mrresizeAvail
        randCsc randXfm randMask1 randMask2).workTmp true) := by
  constructor
  · unfold mainEvents
    simp only [List.filter_append, csc_ptFilter, ptFilter_if_copy]
    cases noCleanup <;> simp [isParentTeardown]
  · exact List.getLast?_concat _

/-- Counterexample to claim C4 as frozen: on a concrete success-path run
(with cleanup enabled), the trace contains three workspace-teardown
invocations, not exactly one — the mask stage tears down its scratch
temporary directories mid-pipeline (xfm_tck.py lines 757-759, reached
once inside `compute_xfm` and once inside
`create_structural_connectome`), in addition to the pipeline-exit
teardown of main. -/
theorem c4_counterexample :
    ((mainEvents "/out".data "/in/dwi.nii.gz".data "/in/dwi.bval".data
      "/in/dwi.bvec".data "/tpl/t.nii.gz".data "/tpl/tb.nii.gz".data
      "/tpl/l.nii.gz".data "/in/dwi.json".data false false false "0.5".data
      "1.5".data "0.07".data 12 100000 false none false false true true
      true true false "/app".data true "1".data "2".data "3".data
      "4".data).filter isTeardown).length = 3 ∧
    ¬ ((mainEvents "/out".data "/in/dwi.nii.gz".data "/in/dwi.bval".data
      "/in/dwi.bvec".data "/tpl/t.nii.gz".data "/tpl/tb.nii.gz".data
      "/tpl/l.nii.gz".data "/in/dwi.json".data false false false "0.5".data
      "1.5".data "0.07".data 12 100000 false none false false true true
      true true false "/app".data true "1".data "2".data "3".data
      "4".data).filter isTeardown).length = 1 := by
  have h : ((mainEvents "/out".data "/in/dwi.nii.gz".data "/in/dwi.bval".data
      "/in/dwi.bvec".data "/tpl/t.nii.gz".data "/tpl/tb.nii.gz".data
      "/tpl/l.nii.gz".data "/in/dwi.json".data false false false "0.5".data
      "1.5".data "0.07".data 12 100000 false none false false true true
      true true false "/app".data true "1".data "2".data "3".data
      "4".data).filter isTeardown).length = 3 := by decide
  exact ⟨h, by omega⟩

/-! ## Claim C5 -/

theorem startswith_slash_false (t : Str) (h : t.head? ≠ some '/') :
    "/".data.isPrefixOf t = false := by
  cases t with
  | nil => rfl
  | cons c cs =>
    have hc : c ≠ '/' := by
      intro he
      exact h (by rw [he]; rfl)
    show (('/' == c) && List.isPrefixOf [] cs) = false
    simp [hc]
    intro he
    exact absurd he.symm hc

theorem startswith_slash_append_eq (f a b : Str)
    (hah : a.head? ≠ some '/') (hbh : b.head? ≠ some '/') :
    "/".data.isPrefixOf (f ++ a) = "/".data.isPrefixOf (f ++ b) := by
  cases f with
  | nil =>
    simp only [List.nil_append]
    rw [startswith_slash_false a hah, startswith_slash_false b hbh]
  | cons c cs => simp [List.isPrefixOf]

theorem pyJoin_common (p t1 t2 : Str)
    (hsw : "/".data.isPrefixOf t1 = "/".data.isPrefixOf t2) :
    ∃ X, pyJoin p t1 = X ++ t1 ∧ pyJoin p t2 = X ++ t2 := by
  unfold pyJoin pyStartswith
  rw [← hsw]
  by_cases h1 : "/".data.isPrefixOf t1 = true
  · rw [if_pos h1, if_pos h1]
    exact ⟨[], rfl, rfl⟩
  · rw [if_neg h1, if_neg h1]
    by_cases h2 : p = [] ∨ pyEndswith p "/".data = true
    · rw [if_pos h2, if_pos h2]
      exact ⟨p, rfl, rfl⟩
    · rw [if_neg h2, if_neg h2]
      exact ⟨p ++ "/".data, by simp, by simp⟩

/-- Two sibling names derived from the same directory and stem by
different non-empty, non-absolute tails are distinct paths. -/
theorem pyJoin_append_ne (p f a b : Str)
    (hah : a.head? ≠ some '/') (hbh : b.head? ≠ some '/')
    (hne : a ≠ b) :
    pyJoin p (f ++ a) ≠ pyJoin p (f ++ b) := by
  obtain ⟨X, hx1, hx2⟩ := pyJoin_common p (f ++ a) (f ++ b)
    (startswith_slash_append_eq f a b hah hbh)
  rw [hx1, hx2]
  intro h
  exact hne (List.append_cancel_left (List.append_cancel_left h))

theorem pyDropRight_append_len (pre s : Str) (n : Nat) (he : s.length = n) :
    pyDropRight (pre ++ s) n = pre := by
  rw [pyDropRight]
  have hl : (pre ++ s).length = pre.length + n := by simp [he]
  rw [hl]
  have h2 : pre.length + n - n = pre.length := by omega
  rw [h2, List.take_left]

theorem mifInit_mif_file (name : Str)
    (h : pyInStr ".gz".data name = false) :
    (mifInit name false).file = pyDropRight name 4 ++ ".mif".data := by
  unfold mifInit
  rw [if_neg (by rw [h]; exact Bool.false_ne_true)]
  rfl

/-- The file stored for a metric map built as `join(path, f ++ tag ++
".mif")` (with tag such as `.fa`) is `X ++ f ++ tag ++ ".mif"` for the
join prefix `X`, so metric maps with distinct tags are distinct files. -/
theorem mif_metric_file_ne (p f : Str) (a b : Str)
    (hah : a.head? ≠ some '/') (hbh : b.head? ≠ some '/')
    (hne : a ≠ b) (hla : 4 ≤ a.length) (hlb : 4 ≤ b.length)
    (hga : pyInStr ".gz".data (pyJoin p (f ++ a)) = false)
    (hgb : pyInStr ".gz".data (pyJoin p (f ++ b)) = false)
    (hsa : pyTakeRight a 4 = ".mif".data)
    (hsb : pyTakeRight b 4 = ".mif".data) :
    (mifInit (pyJoin p (f ++ a)) false).file ≠
      (mifInit (pyJoin p (f ++ b)) false).file := by
  rw [mifInit_mif_file _ hga, mifInit_mif_file _ hgb]
  obtain ⟨X, hx1, hx2⟩ := pyJoin_common p (f ++ a) (f ++ b)
    (startswith_slash_append_eq f a b hah hbh)
  rw [hx1, hx2]
  have hsplit : ∀ t : Str, 4 ≤ t.length →
      t = pyDropRight t 4 ++ pyTakeRight t 4 := by
    intro t ht
    rw [pyDropRight, pyTakeRight, List.take_append_drop]
  have hda : X ++ (f ++ a) = (X ++ (f ++ pyDropRight a 4)) ++ ".mif".data := by
    conv_lhs => rw [hsplit a hla]
    rw [hsa]
    simp [List.append_assoc]
  have hdb : X ++ (f ++ b) = (X ++ (f ++ pyDropRight b 4)) ++ ".mif".data := by
    conv_lhs => rw [hsplit b hlb]
    rw [hsb]
    simp [List.append_assoc]
  rw [hda, hdb, pyDropRight_append_len _ _ 4 (by decide),
    pyDropRight_append_len _ _ 4 (by decide)]
  intro h
  apply hne
  have h0 : X ++ (f ++ (pyDropRight a 4 ++ ".mif".data)) =
      X ++ (f ++ (pyDropRight b 4 ++ ".mif".data)) := by
    simpa [List.append_assoc] using h
  have h2 := List.append_cancel_left (List.append_cancel_left h0)
  calc a = pyDropRight a 4 ++ pyTakeRight a 4 := hsplit a hla
    _ = pyDropRight a 4 ++ ".mif".data := by rw [hsa]
    _ = pyDropRight b 4 ++ ".mif".data := h2
    _ = pyDropRight b 4 ++ pyTakeRight b 4 := by rw [hsb]
    _ = b := (hsplit b hlb).symm

/-- Modelled from the spec: effect of one trace event on the set of
existing files (§6 — each invoked tool is expected to write its declared
output paths; `os.remove` deletes a file). -/
def applyEvent (fs : List Str) : Event → List Str
  | Event.run _ outs => fs ++ outs
  | Event.copyFile _ dst => fs ++ [dst]
  | Event.removeFile f => fs.filter (fun q => q ≠ f)
  | _ => fs

/-- Folding the file-state effect over a trace. -/
def applyEvents (fs : List Str) (es : List Event) : List Str :=
  es.foldl applyEvent fs

theorem applyEvents_append (fs : List Str) (a b : List Event) :
    applyEvents fs (a ++ b) = applyEvents (applyEvents fs a) b :=
  List.foldl_append _ _ _ _

theorem not_mem_filter_ne (l : List Str) (x : Str) :
    x ∉ l.filter (fun q => q ≠ x) := by
  intro h
  have := (List.mem_filter.mp h).2
  simp at this

theorem mem_filter_ne_of_mem (l : List Str) (x y : Str) (hx : x ∈ l)
    (hne : x ≠ y) : x ∈ l.filter (fun q => q ≠ y) :=
  List.mem_filter.mpr ⟨hx, by simp [hne]⟩

/-- A successful (zero-status) invocation merely appends its run event. -/
theorem runE_zero (t : ExecSt) (ht : t.err = none) (cmd : List Str)
    (outs : List Str) :
    runE zeroOracle t cmd outs = ⟨t.events ++ [Event.run cmd outs], none⟩ := by
  unfold runE
  rw [ht]
  simp [zeroOracle]

theorem removeFileE_none (t : ExecSt) (ht : t.err = none) (f : Str) :
    removeFileE t f = ⟨t.events ++ [Event.removeFile f], none⟩ := by
  unfold removeFileE
  rw [ht]

/-- Under the all-successful oracle, the metric-weighting loop appends,
for each metric/output pair in order, exactly the three events of one
pass: the sampling run, the weighted-connectome run, and the eager
removal of the shared scratch file. -/
theorem foldl_weightPassE_zero (tckF labelsF tmpMetric : Str)
    (symmetric zeroDiag force : Bool) (pairs : List (Str × Str))
    (t : ExecSt) (ht : t.err = none) :
    pairs.foldl (weightPassE zeroOracle tckF labelsF tmpMetric symmetric
      zeroDiag force) t =
    ⟨t.events ++ pairs.flatMap (fun pr =>
      [Event.run (tcksampleCmd tckF pr.1 tmpMetric) [tmpMetric],
       Event.run (weightedCtmCmd tckF labelsF pr.2 tmpMetric symmetric
         zeroDiag force) [pr.2],
       Event.removeFile tmpMetric]), none⟩ := by
  induction pairs generalizing t with
  | nil =>
    rcases t with ⟨evs, err⟩
    simp only at ht
    subst ht
    simp
  | cons p ps ih =>
    rw [List.foldl_cons]
    have hpass : weightPassE zeroOracle tckF labelsF tmpMetric symmetric
        zeroDiag force t p =
        ⟨t.events ++
          [Event.run (tcksampleCmd tckF p.1 tmpMetric) [tmpMetric],
           Event.run (weightedCtmCmd tckF labelsF p.2 tmpMetric symmetric
             zeroDiag force) [p.2],
           Event.removeFile tmpMetric], none⟩ := by
      unfold weightPassE
      dsimp only
      rw [runE_zero t ht]
      rw [runE_zero ⟨t.events ++ [Event.run (tcksampleCmd tckF p.1
        tmpMetric) [tmpMetric]], none⟩ rfl]
      simp [removeFileE]
    rw [hpass, ih _ rfl]
    simp

theorem runE_zero_err (t : ExecSt) (ht : t.err = none) (c : List Str)
    (o : List Str) : (runE zeroOracle t c o).err = none := by
  rw [runE_zero t ht]

theorem removeFileE_err (t : ExecSt) (ht : t.err = none) (f : Str) :
    (removeFileE t f).err = none := by
  rw [removeFileE_none t ht]

theorem computeDiffMetricsE_zero_err (t : ExecSt) (ht : t.err = none)
    (cwd : Str) (r : ReconM) (dwi : MifM) (mask : Option MifM)
    (fa md ad rd cleanup force : Bool) :
    (computeDiffMetricsE zeroOracle t cwd r dwi mask fa md ad rd cleanup
      force).err = none := by
  unfold computeDiffMetricsE
  dsimp only
  by_cases hc : cleanup
  · rw [if_pos hc]
    exact removeFileE_err _ (runE_zero_err _ (runE_zero_err _ ht _ _) _ _) _
  · rw [if_neg hc]
    exact runE_zero_err _ (runE_zero_err _ ht _ _) _ _

theorem mem_applyEvents_block (fs : List Str) (tckF labelsF tmp : Str)
    (symmetric zeroDiag force : Bool) (pr : Str × Str) (x : Str)
    (hx : x ∈ fs ∨ x = pr.2) (hne : x ≠ tmp) :
    x ∈ applyEvents fs
      [Event.run (tcksampleCmd tckF pr.1 tmp) [tmp],
       Event.run (weightedCtmCmd tckF labelsF pr.2 tmp symmetric zeroDiag
         force) [pr.2],
       Event.removeFile tmp] := by
  show x ∈ ((fs ++ [tmp]) ++ [pr.2]).filter (fun q => q ≠ tmp)
  apply mem_filter_ne_of_mem _ _ _ _ hne
  rcases hx with hx | hx
  · exact List.mem_append_left _ (List.mem_append_left _ hx)
  · exact List.mem_append_right _ (by rw [hx]; exact List.mem_singleton_self _)

theorem tmp_not_mem_applyEvents_block (fs : List Str)
    (tckF labelsF tmp : Str) (symmetric zeroDiag force : Bool)
    (pr : Str × Str) :
    tmp ∉ applyEvents fs
      [Event.run (tcksampleCmd tckF pr.1 tmp) [tmp],
       Event.run (weightedCtmCmd tckF labelsF pr.2 tmp symmetric zeroDiag
         force) [pr.2],
       Event.removeFile tmp] := by
  show tmp ∉ ((fs ++ [tmp]) ++ [pr.2]).filter (fun q => q ≠ tmp)
  exact not_mem_filter_ne _ _

/-- The connectome stage instantiated with all four weighting flags
enabled, under the all-success oracle (a completed run). -/
def scAllFour (cwd : Str) (r : ReconM) (tckF labelsF : Str)
    (dwi mask : MifM) (symmetric zeroDiag force cleanup : Bool) : ScOut :=
  structuralConnectomeE zeroOracle cwd r tckF labelsF dwi (some mask)
    symmetric zeroDiag true true true true cleanup force

/-- The three events of one metric-weighting pass: sample the metric mean
per streamline into the scratch file, assemble the weighted connectome,
remove the scratch file. -/
def passBlock (tckF labelsF tmp : Str) (symmetric zeroDiag force : Bool)
    (pr : Str × Str) : List Event :=
  [Event.run (tcksampleCmd tckF pr.1 tmp) [tmp],
   Event.run (weightedCtmCmd tckF labelsF pr.2 tmp symmetric zeroDiag
     force) [pr.2],
   Event.removeFile tmp]

theorem scAllFour_st (cwd : Str) (r : ReconM) (tckF labelsF : Str)
    (dwi mask : MifM) (symmetric zeroDiag force cleanup : Bool) :
    (scAllFour cwd r tckF labelsF dwi mask symmetric zeroDiag force
      cleanup).st =
    ⟨(computeDiffMetricsE zeroOracle ⟨[], none⟩ cwd r dwi (some mask)
        true true true true cleanup force).events
      ++ [Event.run (unweightedCtmCmd tckF labelsF
            (scAllFour cwd r tckF labelsF dwi mask symmetric zeroDiag force
              cleanup).connectome symmetric zeroDiag force)
          [(scAllFour cwd r tckF labelsF dwi mask symmetric zeroDiag force
              cleanup).connectome]]
      ++ (scAllFour cwd r tckF labelsF dwi mask symmetric zeroDiag force
            cleanup).metricPairs.flatMap
          (passBlock tckF labelsF
            (scAllFour cwd r tckF labelsF dwi mask symmetric zeroDiag force
              cleanup).tmpMetric symmetric zeroDiag force), none⟩ := by
  have ht1 : (computeDiffMetricsE zeroOracle ⟨[], none⟩ cwd r dwi
      (some mask) true true true true cleanup force).err = none :=
    computeDiffMetricsE_zero_err _ rfl _ _ _ _ _ _ _ _ _ _
  unfold scAllFour structuralConnectomeE
  dsimp only
  simp only [eq_self_iff_true, true_or, if_true]
  rw [runE_zero _ ht1]
  rw [foldl_weightPassE_zero _ _ _ _ _ _ _ _ rfl]
  simp [passBlock, List.append_assoc]


theorem applyEvents_passBlock (fs : List Str)
    (tckF labelsF tmp : Str) (symmetric zeroDiag force : Bool)
    (pr : Str × Str) :
    applyEvents fs (passBlock tckF labelsF tmp symmetric zeroDiag force pr)
      = ((fs ++ [tmp]) ++ [pr.2]).filter (fun q => q ≠ tmp) := rfl

theorem mem_applyEvents_flatMap_blocks (tckF labelsF tmp : Str)
    (symmetric zeroDiag force : Bool) (pairs : List (Str × Str))
    (x : Str) (hne : x ≠ tmp) :
    ∀ fs : List Str, (x ∈ fs ∨ ∃ pr ∈ pairs, x = pr.2) →
    x ∈ applyEvents fs
      (pairs.flatMap (passBlock tckF labelsF tmp symmetric zeroDiag
        force)) := by
  induction pairs with
  | nil =>
    intro fs hx
    rcases hx with hx | ⟨pr, hpr, _⟩
    · exact hx
    · exact absurd hpr (List.not_mem_nil pr)
  | cons p ps ih =>
    intro fs hx
    rw [List.flatMap_cons, applyEvents_append, applyEvents_passBlock]
    have hstep : ∀ y : Str, y ∈ fs ∨ y = p.2 → y ≠ tmp →
        y ∈ ((fs ++ [tmp]) ++ [p.2]).filter (fun q => q ≠ tmp) := by
      intro y hy hyne
      refine mem_filter_ne_of_mem _ _ _ ?_ hyne
      rcases hy with hy | hy
      · exact List.mem_append_left _ (List.mem_append_left _ hy)
      · rw [hy]
        exact List.mem_append_right _ (List.mem_singleton_self _)
    rcases hx with hx | ⟨pr, hpr, hxe⟩
    · exact ih _ (Or.inl (hstep x (Or.inl hx) hne))
    · rcases List.mem_cons.mp hpr with hp | hp
      · exact ih _ (Or.inl (hstep x (Or.inr (by rw [hxe, hp])) hne))
      · exact ih _ (Or.inr ⟨pr, hp, hxe⟩)

theorem tmp_not_mem_applyEvents_flatMap (tckF labelsF tmp : Str)
    (symmetric zeroDiag force : Bool) (pairs : List (Str × Str))
    (hne : pairs ≠ []) :
    ∀ fs : List Str, tmp ∉ applyEvents fs
      (pairs.flatMap (passBlock tckF labelsF tmp symmetric zeroDiag
        force)) := by
  induction pairs with
  | nil => exact absurd rfl hne
  | cons p ps ih =>
    intro fs
    rw [List.flatMap_cons, applyEvents_append, applyEvents_passBlock]
    cases ps with
    | nil =>
      show tmp ∉ applyEvents _ []
      exact not_mem_filter_ne _ _
    | cons q qs =>
      exact ih (List.cons_ne_nil q qs) _

/-- Claim C5: in every completed run of `structural_connectome` with all
four metric-weighting flags enabled (modelled by `scAllFour`, the stage
under the all-success oracle), the weighting loop runs exactly four
passes, one per metric map (FA, MD, AD, RD), in order; each pass samples
its own metric map into the shared scratch file and assembles its own
weighted connectome, removing the scratch file before the next pass
begins (the trace is the concatenation of the four `passBlock`s, each
ending in the removal); the four weighted connectome files are pairwise
distinct, their four source metric maps are pairwise distinct, the
weighted files are distinct from the scratch file, all four are present
in the final file state for any initial file state, and the scratch
sampling file is absent when the stage returns.  The `pyInStr`
hypotheses pin the non-gzip naming variant of the run. -/
theorem c5_four_weighted_connectomes (cwd : Str) (r : ReconM)
    (tckF labelsF : Str) (dwi mask : MifM)
    (symmetric zeroDiag force cleanup : Bool)
    (hgz : pyInStr ".gz".data dwi.file = false)
    (hfa : pyInStr ".gz".data
      (pyJoin (artifactParts cwd r.niiFile.src r.niiFile.ext).1
        ((artifactParts cwd r.niiFile.src r.niiFile.ext).2.1
          ++ ".fa.mif".data)) = false)
    (hmd : pyInStr ".gz".data
      (pyJoin (artifactParts cwd r.niiFile.src r.niiFile.ext).1
        ((artifactParts cwd r.niiFile.src r.niiFile.ext).2.1
          ++ ".md.mif".data)) = false)
    (had : pyInStr ".gz".data
      (pyJoin (artifactParts cwd r.niiFile.src r.niiFile.ext).1
        ((artifactParts cwd r.niiFile.src r.niiFile.ext).2.1
          ++ ".ad.mif".data)) = false)
    (hrd : pyInStr ".gz".data
      (pyJoin (artifactParts cwd r.niiFile.src r.niiFile.ext).1
        ((artifactParts cwd r.niiFile.src r.niiFile.ext).2.1
          ++ ".rd.mif".data)) = false) :
    (scAllFour cwd r tckF labelsF dwi mask symmetric zeroDiag force cleanup).st.err = none ∧
    (scAllFour cwd r tckF labelsF dwi mask symmetric zeroDiag force cleanup).metricPairs =
      [((diffMetricNames cwd r dwi).faMif.file, (scAllFour cwd r tckF labelsF dwi mask symmetric zeroDiag force cleanup).faCon),
       ((diffMetricNames cwd r dwi).mdMif.file, (scAllFour cwd r tckF labelsF dwi mask symmetric zeroDiag force cleanup).mdCon),
       ((diffMetricNames cwd r dwi).adMif.file, (scAllFour cwd r tckF labelsF dwi mask symmetric zeroDiag force cleanup).adCon),
       ((diffMetricNames cwd r dwi).rdMif.file, (scAllFour cwd r tckF labelsF dwi mask symmetric zeroDiag force cleanup).rdCon)] ∧
    (scAllFour cwd r tckF labelsF dwi mask symmetric zeroDiag force cleanup).st.events =
      (computeDiffMetricsE zeroOracle ⟨[], none⟩ cwd r dwi (some mask)
        true true true true cleanup force).events
      ++ [Event.run (unweightedCtmCmd tckF labelsF (scAllFour cwd r tckF labelsF dwi mask symmetric zeroDiag force cleanup).connectome
            symmetric zeroDiag force) [(scAllFour cwd r tckF labelsF dwi mask symmetric zeroDiag force cleanup).connectome]]
      ++ (scAllFour cwd r tckF labelsF dwi mask symmetric zeroDiag force cleanup).metricPairs.flatMap
          (passBlock tckF labelsF (scAllFour cwd r tckF labelsF dwi mask symmetric zeroDiag force cleanup).tmpMetric symmetric zeroDiag
            force) ∧
    ((scAllFour cwd r tckF labelsF dwi mask symmetric zeroDiag force cleanup).faCon ≠ (scAllFour cwd r tckF labelsF dwi mask symmetric zeroDiag force cleanup).mdCon ∧
     (scAllFour cwd r tckF labelsF dwi mask symmetric zeroDiag force cleanup).faCon ≠ (scAllFour cwd r tckF labelsF dwi mask symmetric zeroDiag force cleanup).adCon ∧
     (scAllFour cwd r tckF labelsF dwi mask symmetric zeroDiag force cleanup).faCon ≠ (scAllFour cwd r tckF labelsF dwi mask symmetric zeroDiag force cleanup).rdCon ∧
     (scAllFour cwd r tckF labelsF dwi mask symmetric zeroDiag force cleanup).mdCon ≠ (scAllFour cwd r tckF labelsF dwi mask symmetric zeroDiag force cleanup).adCon ∧
     (scAllFour cwd r tckF labelsF dwi mask symmetric zeroDiag force cleanup).mdCon ≠ (scAllFour cwd r tckF labelsF dwi mask symmetric zeroDiag force cleanup).rdCon ∧
     (scAllFour cwd r tckF labelsF dwi mask symmetric zeroDiag force cleanup).adCon ≠ (scAllFour cwd r tckF labelsF dwi mask symmetric zeroDiag force cleanup).rdCon) ∧
    ((scAllFour cwd r tckF labelsF dwi mask symmetric zeroDiag force cleanup).faCon ≠ (scAllFour cwd r tckF labelsF dwi mask symmetric zeroDiag force cleanup).tmpMetric ∧
     (scAllFour cwd r tckF labelsF dwi mask symmetric zeroDiag force cleanup).mdCon ≠ (scAllFour cwd r tckF labelsF dwi mask symmetric zeroDiag force cleanup).tmpMetric ∧
     (scAllFour cwd r tckF labelsF dwi mask symmetric zeroDiag force cleanup).adCon ≠ (scAllFour cwd r tckF labelsF dwi mask symmetric zeroDiag force cleanup).tmpMetric ∧
     (scAllFour cwd r tckF labelsF dwi mask symmetric zeroDiag force cleanup).rdCon ≠ (scAllFour cwd r tckF labelsF dwi mask symmetric zeroDiag force cleanup).tmpMetric) ∧
    ((diffMetricNames cwd r dwi).faMif.file ≠ (diffMetricNames cwd r dwi).mdMif.file ∧
     (diffMetricNames cwd r dwi).faMif.file ≠ (diffMetricNames cwd r dwi).adMif.file ∧
     (diffMetricNames cwd r dwi).faMif.file ≠ (diffMetricNames cwd r dwi).rdMif.file ∧
     (diffMetricNames cwd r dwi).mdMif.file ≠ (diffMetricNames cwd r dwi).adMif.file ∧
     (diffMetricNames cwd r dwi).mdMif.file ≠ (diffMetricNames cwd r dwi).rdMif.file ∧
     (diffMetricNames cwd r dwi).adMif.file ≠ (diffMetricNames cwd r dwi).rdMif.file) ∧
    (∀ fs0 : List Str,
      (scAllFour cwd r tckF labelsF dwi mask symmetric zeroDiag force cleanup).faCon ∈ applyEvents fs0 (scAllFour cwd r tckF labelsF dwi mask symmetric zeroDiag force cleanup).st.events ∧
      (scAllFour cwd r tckF labelsF dwi mask symmetric zeroDiag force cleanup).mdCon ∈ applyEvents fs0 (scAllFour cwd r tckF labelsF dwi mask symmetric zeroDiag force cleanup).st.events ∧
      (scAllFour cwd r tckF labelsF dwi mask symmetric zeroDiag force cleanup).adCon ∈ applyEvents fs0 (scAllFour cwd r tckF labelsF dwi mask symmetric zeroDiag force cleanup).st.events ∧
      (scAllFour cwd r tckF labelsF dwi mask symmetric zeroDiag force cleanup).rdCon ∈ applyEvents fs0 (scAllFour cwd r tckF labelsF dwi mask symmetric zeroDiag force cleanup).st.events ∧
      (scAllFour cwd r tckF labelsF dwi mask symmetric zeroDiag force cleanup).tmpMetric ∉ applyEvents fs0 (scAllFour cwd r tckF labelsF dwi mask symmetric zeroDiag force cleanup).st.events) := by
  have herr : (scAllFour cwd r tckF labelsF dwi mask symmetric zeroDiag force cleanup).st.err = none := by
    rw [scAllFour_st]
  have hpairs : (scAllFour cwd r tckF labelsF dwi mask symmetric zeroDiag force cleanup).metricPairs =
      [((diffMetricNames cwd r dwi).faMif.file, (scAllFour cwd r tckF labelsF dwi mask symmetric zeroDiag force cleanup).faCon),
       ((diffMetricNames cwd r dwi).mdMif.file, (scAllFour cwd r tckF labelsF dwi mask symmetric zeroDiag force cleanup).mdCon),
       ((diffMetricNames cwd r dwi).adMif.file, (scAllFour cwd r tckF labelsF dwi mask symmetric zeroDiag force cleanup).adCon),
       ((diffMetricNames cwd r dwi).rdMif.file, (scAllFour cwd r tckF labelsF dwi mask symmetric zeroDiag force cleanup).rdCon)] := rfl
  have hev := scAllFour_st cwd r tckF labelsF dwi mask symmetric zeroDiag
    force cleanup
  have hevE : (scAllFour cwd r tckF labelsF dwi mask symmetric zeroDiag force cleanup).st.events =
      (computeDiffMetricsE zeroOracle ⟨[], none⟩ cwd r dwi (some mask)
        true true true true cleanup force).events
      ++ [Event.run (unweightedCtmCmd tckF labelsF (scAllFour cwd r tckF labelsF dwi mask symmetric zeroDiag force cleanup).connectome
            symmetric zeroDiag force) [(scAllFour cwd r tckF labelsF dwi mask symmetric zeroDiag force cleanup).connectome]]
      ++ (scAllFour cwd r tckF labelsF dwi mask symmetric zeroDiag force cleanup).metricPairs.flatMap
          (passBlock tckF labelsF (scAllFour cwd r tckF labelsF dwi mask symmetric zeroDiag force cleanup).tmpMetric symmetric zeroDiag
            force) := by
    rw [hev]
  have hcon0 : (scAllFour cwd r tckF labelsF dwi mask symmetric zeroDiag force cleanup).faCon ≠ (scAllFour cwd r tckF labelsF dwi mask symmetric zeroDiag force cleanup).mdCon := by
    show pyJoin (artifactParts cwd r.niiFile.src r.niiFile.ext).1
        ((artifactParts cwd r.niiFile.src r.niiFile.ext).2.1
          ++ ".structural_connectome.fa_weighted".data ++ ".txt".data) ≠
      pyJoin (artifactParts cwd r.niiFile.src r.niiFile.ext).1
        ((artifactParts cwd r.niiFile.src r.niiFile.ext).2.1
          ++ ".structural_connectome.md_weighted".data ++ ".txt".data)
    rw [List.append_assoc, List.append_assoc]
    exact pyJoin_append_ne _ _ _ _ (by decide) (by decide) (by decide)
  have hcon1 : (scAllFour cwd r tckF labelsF dwi mask symmetric zeroDiag force cleanup).faCon ≠ (scAllFour cwd r tckF labelsF dwi mask symmetric zeroDiag force cleanup).adCon := by
    show pyJoin (artifactParts cwd r.niiFile.src r.niiFile.ext).1
        ((artifactParts cwd r.niiFile.src r.niiFile.ext).2.1
          ++ ".structural_connectome.fa_weighted".data ++ ".txt".data) ≠
      pyJoin (artifactParts cwd r.niiFile.src r.niiFile.ext).1
        ((artifactParts cwd r.niiFile.src r.niiFile.ext).2.1
          ++ ".structural_connectome.ad_weighted".data ++ ".txt".data)
    rw [List.append_assoc, List.append_assoc]
    exact pyJoin_append_ne _ _ _ _ (by decide) (by decide) (by decide)
  have hcon2 : (scAllFour cwd r tckF labelsF dwi mask symmetric zeroDiag force cleanup).faCon ≠ (scAllFour cwd r tckF labelsF dwi mask symmetric zeroDiag force cleanup).rdCon := by
    show pyJoin (artifactParts cwd r.niiFile.src r.niiFile.ext).1
        ((artifactParts cwd r.niiFile.src r.niiFile.ext).2.1
          ++ ".structural_connectome.fa_weighted".data ++ ".txt".data) ≠
      pyJoin (artifactParts cwd r.niiFile.src r.niiFile.ext).1
        ((artifactParts cwd r.niiFile.src r.niiFile.ext).2.1
          ++ ".structural_connectome.rd_weighted".data ++ ".txt".data)
    rw [List.append_assoc, List.append_assoc]
    exact pyJoin_append_ne _ _ _ _ (by decide) (by decide) (by decide)
  have hcon3 : (scAllFour cwd r tckF labelsF dwi mask symmetric zeroDiag force cleanup).mdCon ≠ (scAllFour cwd r tckF labelsF dwi mask symmetric zeroDiag force cleanup).adCon := by
    show pyJoin (artifactParts cwd r.niiFile.src r.niiFile.ext).1
        ((artifactParts cwd r.niiFile.src r.niiFile.ext).2.1
          ++ ".structural_connectome.md_weighted".data ++ ".txt".data) ≠
      pyJoin (artifactParts cwd r.niiFile.src r.niiFile.ext).1
        ((artifactParts cwd r.niiFile.src r.niiFile.ext).2.1
          ++ ".structural_connectome.ad_weighted".data ++ ".txt".data)
    rw [List.append_assoc, List.append_assoc]
    exact pyJoin_append_ne _ _ _ _ (by decide) (by decide) (by decide)
  have hcon4 : (scAllFour cwd r tckF labelsF dwi mask symmetric zeroDiag force cleanup).mdCon ≠ (scAllFour cwd r tckF labelsF dwi mask symmetric zeroDiag force cleanup).rdCon := by
    show pyJoin (artifactParts cwd r.niiFile.src r.niiFile.ext).1
        ((artifactParts cwd r.niiFile.src r.niiFile.ext).2.1
          ++ ".structural_connectome.md_weighted".data ++ ".txt".data) ≠
      pyJoin (artifactParts cwd r.niiFile.src r.niiFile.ext).1
        ((artifactParts cwd r.niiFile.src r.niiFile.ext).2.1
          ++ ".structural_connectome.rd_weighted".data ++ ".txt".data)
    rw [List.append_assoc, List.append_assoc]
    exact pyJoin_append_ne _ _ _ _ (by decide) (by decide) (by decide)
  have hcon5 : (scAllFour cwd r tckF labelsF dwi mask symmetric zeroDiag force cleanup).adCon ≠ (scAllFour cwd r tckF labelsF dwi mask symmetric zeroDiag force cleanup).rdCon := by
    show pyJoin (artifactParts cwd r.niiFile.src r.niiFile.ext).1
        ((artifactParts cwd r.niiFile.src r.niiFile.ext).2.1
          ++ ".structural_connectome.ad_weighted".data ++ ".txt".data) ≠
      pyJoin (artifactParts cwd r.niiFile.src r.niiFile.ext).1
        ((artifactParts cwd r.niiFile.src r.niiFile.ext).2.1
          ++ ".structural_connectome.rd_weighted".data ++ ".txt".data)
    rw [List.append_assoc, List.append_assoc]
    exact pyJoin_append_ne _ _ _ _ (by decide) (by decide) (by decide)
  have htm0 : (scAllFour cwd r tckF labelsF dwi mask symmetric zeroDiag force cleanup).faCon ≠ (scAllFour cwd r tckF labelsF dwi mask symmetric zeroDiag force cleanup).tmpMetric := by
    show pyJoin (artifactParts cwd r.niiFile.src r.niiFile.ext).1
        ((artifactParts cwd r.niiFile.src r.niiFile.ext).2.1
          ++ ".structural_connectome.fa_weighted".data ++ ".txt".data) ≠
      pyJoin (artifactParts cwd r.niiFile.src r.niiFile.ext).1
        ((artifactParts cwd r.niiFile.src r.niiFile.ext).2.1 ++ "metric.vertex.mean.csv".data)
    rw [List.append_assoc]
    exact pyJoin_append_ne _ _ _ _ (by decide) (by decide) (by decide)
  have htm1 : (scAllFour cwd r tckF labelsF dwi mask symmetric zeroDiag force cleanup).mdCon ≠ (scAllFour cwd r tckF labelsF dwi mask symmetric zeroDiag force cleanup).tmpMetric := by
    show pyJoin (artifactParts cwd r.niiFile.src r.niiFile.ext).1
        ((artifactParts cwd r.niiFile.src r.niiFile.ext).2.1
          ++ ".structural_connectome.md_weighted".data ++ ".txt".data) ≠
      pyJoin (artifactParts cwd r.niiFile.src r.niiFile.ext).1
        ((artifactParts cwd r.niiFile.src r.niiFile.ext).2.1 ++ "metric.vertex.mean.csv".data)
    rw [List.append_assoc]
    exact pyJoin_append_ne _ _ _ _ (by decide) (by decide) (by decide)
  have htm2 : (scAllFour cwd r tckF labelsF dwi mask symmetric zeroDiag force cleanup).adCon ≠ (scAllFour cwd r tckF labelsF dwi mask symmetric zeroDiag force cleanup).tmpMetric := by
    show pyJoin (artifactParts cwd r.niiFile.src r.niiFile.ext).1
        ((artifactParts cwd r.niiFile.src r.niiFile.ext).2.1
          ++ ".structural_connectome.ad_weighted".data ++ ".txt".data) ≠
      pyJoin (artifactParts cwd r.niiFile.src r.niiFile.ext).1
        ((artifactParts cwd r.niiFile.src r.niiFile.ext).2.1 ++ "metric.vertex.mean.csv".data)
    rw [List.append_assoc]
    exact pyJoin_append_ne _ _ _ _ (by decide) (by decide) (by decide)
  have htm3 : (scAllFour cwd r tckF labelsF dwi mask symmetric zeroDiag force cleanup).rdCon ≠ (scAllFour cwd r tckF labelsF dwi mask symmetric zeroDiag force cleanup).tmpMetric := by
    show pyJoin (artifactParts cwd r.niiFile.src r.niiFile.ext).1
        ((artifactParts cwd r.niiFile.src r.niiFile.ext).2.1
          ++ ".structural_connectome.rd_weighted".data ++ ".txt".data) ≠
      pyJoin (artifactParts cwd r.niiFile.src r.niiFile.ext).1
        ((artifactParts cwd r.niiFile.src r.niiFile.ext).2.1 ++ "metric.vertex.mean.csv".data)
    rw [List.append_assoc]
    exact pyJoin_append_ne _ _ _ _ (by decide) (by decide) (by decide)
  have hcfaMif : ((artifactParts cwd r.niiFile.src r.niiFile.ext).2.1 ++ ".fa".data) ++
      ".mif".data = (artifactParts cwd r.niiFile.src r.niiFile.ext).2.1 ++ ".fa.mif".data := by
    rw [List.append_assoc,
      show ".fa".data ++ ".mif".data = ".fa.mif".data from by decide]
  have hcmdMif : ((artifactParts cwd r.niiFile.src r.niiFile.ext).2.1 ++ ".md".data) ++
      ".mif".data = (artifactParts cwd r.niiFile.src r.niiFile.ext).2.1 ++ ".md.mif".data := by
    rw [List.append_assoc,
      show ".md".data ++ ".mif".data = ".md.mif".data from by decide]
  have hcadMif : ((artifactParts cwd r.niiFile.src r.niiFile.ext).2.1 ++ ".ad".data) ++
      ".mif".data = (artifactParts cwd r.niiFile.src r.niiFile.ext).2.1 ++ ".ad.mif".data := by
    rw [List.append_assoc,
      show ".ad".data ++ ".mif".data = ".ad.mif".data from by decide]
  have hcrdMif : ((artifactParts cwd r.niiFile.src r.niiFile.ext).2.1 ++ ".rd".data) ++
      ".mif".data = (artifactParts cwd r.niiFile.src r.niiFile.ext).2.1 ++ ".rd.mif".data := by
    rw [List.append_assoc,
      show ".rd".data ++ ".mif".data = ".rd.mif".data from by decide]
  have hmif0 : (diffMetricNames cwd r dwi).faMif.file ≠ (diffMetricNames cwd r dwi).mdMif.file := by
    show (mifInit (pyJoin (artifactParts cwd r.niiFile.src r.niiFile.ext).1
        ((artifactParts cwd r.niiFile.src r.niiFile.ext).2.1 ++ ".fa".data
          ++ (if pyInStr ".gz".data dwi.file then ".mif.gz".data
              else ".mif".data))) false).file ≠
      (mifInit (pyJoin (artifactParts cwd r.niiFile.src r.niiFile.ext).1
        ((artifactParts cwd r.niiFile.src r.niiFile.ext).2.1 ++ ".md".data
          ++ (if pyInStr ".gz".data dwi.file then ".mif.gz".data
              else ".mif".data))) false).file
    simp only [hgz, Bool.false_eq_true, if_false]
    rw [hcfaMif, hcmdMif]
    exact mif_metric_file_ne _ _ _ _ (by decide) (by decide) (by decide)
      (by decide) (by decide) hfa hmd (by decide) (by decide)
  have hmif1 : (diffMetricNames cwd r dwi).faMif.file ≠ (diffMetricNames cwd r dwi).adMif.file := by
    show (mifInit (pyJoin (artifactParts cwd r.niiFile.src r.niiFile.ext).1
        ((artifactParts cwd r.niiFile.src r.niiFile.ext).2.1 ++ ".fa".data
          ++ (if pyInStr ".gz".data dwi.file then ".mif.gz".data
              else ".mif".data))) false).file ≠
      (mifInit (pyJoin (artifactParts cwd r.niiFile.src r.niiFile.ext).1
        ((artifactParts cwd r.niiFile.src r.niiFile.ext).2.1 ++ ".ad".data
          ++ (if pyInStr ".gz".data dwi.file then ".mif.gz".data
              else ".mif".data))) false).file
    simp only [hgz, Bool.false_eq_true, if_false]
    rw [hcfaMif, hcadMif]
    exact mif_metric_file_ne _ _ _ _ (by decide) (by decide) (by decide)
      (by decide) (by decide) hfa had (by decide) (by decide)
  have hmif2 : (diffMetricNames cwd r dwi).faMif.file ≠ (diffMetricNames cwd r dwi).rdMif.file := by
    show (mifInit (pyJoin (artifactParts cwd r.niiFile.src r.niiFile.ext).1
        ((artifactParts cwd r.niiFile.src r.niiFile.ext).2.1 ++ ".fa".data
          ++ (if pyInStr ".gz".data dwi.file then ".mif.gz".data
              else ".mif".data))) false).file ≠
      (mifInit (pyJoin (artifactParts cwd r.niiFile.src r.niiFile.ext).1
        ((artifactParts cwd r.niiFile.src r.niiFile.ext).2.1 ++ ".rd".data
          ++ (if pyInStr ".gz".data dwi.file then ".mif.gz".data
              else ".mif".data))) false).file
    simp only [hgz, Bool.false_eq_true, if_false]
    rw [hcfaMif, hcrdMif]
    exact mif_metric_file_ne _ _ _ _ (by decide) (by decide) (by decide)
      (by decide) (by decide) hfa hrd (by decide) (by decide)
  have hmif3 : (diffMetricNames cwd r dwi).mdMif.file ≠ (diffMetricNames cwd r dwi).adMif.file := by
    show (mifInit (pyJoin (artifactParts cwd r.niiFile.src r.niiFile.ext).1
        ((artifactParts cwd r.niiFile.src r.niiFile.ext).2.1 ++ ".md".data
          ++ (if pyInStr ".gz".data dwi.file then ".mif.gz".data
              else ".mif".data))) false).file ≠
      (mifInit (pyJoin (artifactParts cwd r.niiFile.src r.niiFile.ext).1
        ((artifactParts cwd r.niiFile.src r.niiFile.ext).2.1 ++ ".ad".data
          ++ (if pyInStr ".gz".data dwi.file then ".mif.gz".data
              else ".mif".data))) false).file
    simp only [hgz, Bool.false_eq_true, if_false]
    rw [hcmdMif, hcadMif]
    exact mif_metric_file_ne _ _ _ _ (by decide) (by decide) (by decide)
      (by decide) (by decide) hmd had (by decide) (by decide)
  have hmif4 : (diffMetricNames cwd r dwi).mdMif.file ≠ (diffMetricNames cwd r dwi).rdMif.file := by
    show (mifInit (pyJoin (artifactParts cwd r.niiFile.src r.niiFile.ext).1
        ((artifactParts cwd r.niiFile.src r.niiFile.ext).2.1 ++ ".md".data
          ++ (if pyInStr ".gz".data dwi.file then ".mif.gz".data
              else ".mif".data))) false).file ≠
      (mifInit (pyJoin (artifactParts cwd r.niiFile.src r.niiFile.ext).1
        ((artifactParts cwd r.niiFile.src r.niiFile.ext).2.1 ++ ".rd".data
          ++ (if pyInStr ".gz".data dwi.file then ".mif.gz".data
              else ".mif".data))) false).file
    simp only [hgz, Bool.false_eq_true, if_false]
    rw [hcmdMif, hcrdMif]
    exact mif_metric_file_ne _ _ _ _ (by decide) (by decide) (by decide)
      (by decide) (by decide) hmd hrd (by decide) (by decide)
  have hmif5 : (diffMetricNames cwd r dwi).adMif.file ≠ (diffMetricNames cwd r dwi).rdMif.file := by
    show (mifInit (pyJoin (artifactParts cwd r.niiFile.src r.niiFile.ext).1
        ((artifactParts cwd r.niiFile.src r.niiFile.ext).2.1 ++ ".ad".data
          ++ (if pyInStr ".gz".data dwi.file then ".mif.gz".data
              else ".mif".data))) false).file ≠
      (mifInit (pyJoin (artifactParts cwd r.niiFile.src r.niiFile.ext).1
        ((artifactParts cwd r.niiFile.src r.niiFile.ext).2.1 ++ ".rd".data
          ++ (if pyInStr ".gz".data dwi.file then ".mif.gz".data
              else ".mif".data))) false).file
    simp only [hgz, Bool.false_eq_true, if_false]
    rw [hcadMif, hcrdMif]
    exact mif_metric_file_ne _ _ _ _ (by decide) (by decide) (by decide)
      (by decide) (by decide) had hrd (by decide) (by decide)
  have hmem : ∀ fs0 : List Str,
      (scAllFour cwd r tckF labelsF dwi mask symmetric zeroDiag force cleanup).faCon ∈ applyEvents fs0 (scAllFour cwd r tckF labelsF dwi mask symmetric zeroDiag force cleanup).st.events ∧
      (scAllFour cwd r tckF labelsF dwi mask symmetric zeroDiag force cleanup).mdCon ∈ applyEvents fs0 (scAllFour cwd r tckF labelsF dwi mask symmetric zeroDiag force cleanup).st.events ∧
      (scAllFour cwd r tckF labelsF dwi mask symmetric zeroDiag force cleanup).adCon ∈ applyEvents fs0 (scAllFour cwd r tckF labelsF dwi mask symmetric zeroDiag force cleanup).st.events ∧
      (scAllFour cwd r tckF labelsF dwi mask symmetric zeroDiag force cleanup).rdCon ∈ applyEvents fs0 (scAllFour cwd r tckF labelsF dwi mask symmetric zeroDiag force cleanup).st.events ∧
      (scAllFour cwd r tckF labelsF dwi mask symmetric zeroDiag force cleanup).tmpMetric ∉ applyEvents fs0 (scAllFour cwd r tckF labelsF dwi mask symmetric zeroDiag force cleanup).st.events := by
    intro fs0
    rw [hevE]
    rw [applyEvents_append, applyEvents_append]
    have hnonnil : (scAllFour cwd r tckF labelsF dwi mask symmetric
        zeroDiag force cleanup).metricPairs ≠ [] := by
      rw [hpairs]
      exact List.cons_ne_nil _ _
    refine ⟨?_, ?_, ?_, ?_, ?_⟩
    · refine mem_applyEvents_flatMap_blocks _ _ _ _ _ _ _ _ htm0 _
        (Or.inr ?_)
      rw [hpairs]
      exact ⟨_, List.mem_cons_self _ _, rfl⟩
    · refine mem_applyEvents_flatMap_blocks _ _ _ _ _ _ _ _ htm1 _
        (Or.inr ?_)
      rw [hpairs]
      exact ⟨_, List.mem_cons_of_mem _ (List.mem_cons_self _ _), rfl⟩
    · refine mem_applyEvents_flatMap_blocks _ _ _ _ _ _ _ _ htm2 _
        (Or.inr ?_)
      rw [hpairs]
      exact ⟨_, List.mem_cons_of_mem _ (List.mem_cons_of_mem _
        (List.mem_cons_self _ _)), rfl⟩
    · refine mem_applyEvents_flatMap_blocks _ _ _ _ _ _ _ _ htm3 _
        (Or.inr ?_)
      rw [hpairs]
      exact ⟨_, List.mem_cons_of_mem _ (List.mem_cons_of_mem _
        (List.mem_cons_of_mem _ (List.mem_cons_self _ _))), rfl⟩
    · exact tmp_not_mem_applyEvents_flatMap _ _ _ _ _ _ _ hnonnil _
  exact ⟨herr, hpairs, hevE, ⟨hcon0, hcon1, hcon2, hcon3, hcon4, hcon5⟩,
    ⟨htm0, htm1, htm2, htm3⟩, ⟨hmif0, hmif1, hmif2, hmif3, hmif4, hmif5⟩,
    hmem⟩

/-- Witness for claim C5 at a concrete run rooted in `/w` with a
`.nii.gz` DWI: all hypotheses hold by computation. -/
theorem c5_four_weighted_connectomes_witness :
    (scAllFour "/w".data (ReconM.mk (niiFileInit "/w/dwi.nii.gz".data) "/w/dwi.bval".data "/w/dwi.bvec".data "/w/dwi.json".data) "/w/tracks.tck".data "/w/labels_up.mif".data (MifM.mk "/w/dwi_up.mif".data ".nii.gz".data) (MifM.mk "/w/mask.mif".data ".nii.gz".data) false false false true).st.err = none ∧
    (scAllFour "/w".data (ReconM.mk (niiFileInit "/w/dwi.nii.gz".data) "/w/dwi.bval".data "/w/dwi.bvec".data "/w/dwi.json".data) "/w/tracks.tck".data "/w/labels_up.mif".data (MifM.mk "/w/dwi_up.mif".data ".nii.gz".data) (MifM.mk "/w/mask.mif".data ".nii.gz".data) false false false true).metricPairs =
      [((diffMetricNames "/w".data (ReconM.mk (niiFileInit "/w/dwi.nii.gz".data) "/w/dwi.bval".data "/w/dwi.bvec".data "/w/dwi.json".data) (MifM.mk "/w/dwi_up.mif".data ".nii.gz".data)).faMif.file, (scAllFour "/w".data (ReconM.mk (niiFileInit "/w/dwi.nii.gz".data) "/w/dwi.bval".data "/w/dwi.bvec".data "/w/dwi.json".data) "/w/tracks.tck".data "/w/labels_up.mif".data (MifM.mk "/w/dwi_up.mif".data ".nii.gz".data) (MifM.mk "/w/mask.mif".data ".nii.gz".data) false false false true).faCon),
       ((diffMetricNames "/w".data (ReconM.mk (niiFileInit "/w/dwi.nii.gz".data) "/w/dwi.bval".data "/w/dwi.bvec".data "/w/dwi.json".data) (MifM.mk "/w/dwi_up.mif".data ".nii.gz".data)).mdMif.file, (scAllFour "/w".data (ReconM.mk (niiFileInit "/w/dwi.nii.gz".data) "/w/dwi.bval".data "/w/dwi.bvec".data "/w/dwi.json".data) "/w/tracks.tck".data "/w/labels_up.mif".data (MifM.mk "/w/dwi_up.mif".data ".nii.gz".data) (MifM.mk "/w/mask.mif".data ".nii.gz".data) false false false true).mdCon),
       ((diffMetricNames "/w".data (ReconM.mk (niiFileInit "/w/dwi.nii.gz".data) "/w/dwi.bval".data "/w/dwi.bvec".data "/w/dwi.json".data) (MifM.mk "/w/dwi_up.mif".data ".nii.gz".data)).adMif.file, (scAllFour "/w".data (ReconM.mk (niiFileInit "/w/dwi.nii.gz".data) "/w/dwi.bval".data "/w/dwi.bvec".data "/w/dwi.json".data) "/w/tracks.tck".data "/w/labels_up.mif".data (MifM.mk "/w/dwi_up.mif".data ".nii.gz".data) (MifM.mk "/w/mask.mif".data ".nii.gz".data) false false false true).adCon),
       ((diffMetricNames "/w".data (ReconM.mk (niiFileInit "/w/dwi.nii.gz".data) "/w/dwi.bval".data "/w/dwi.bvec".data "/w/dwi.json".data) (MifM.mk "/w/dwi_up.mif".data ".nii.gz".data)).rdMif.file, (scAllFour "/w".data (ReconM.mk (niiFileInit "/w/dwi.nii.gz".data) "/w/dwi.bval".data "/w/dwi.bvec".data "/w/dwi.json".data) "/w/tracks.tck".data "/w/labels_up.mif".data (MifM.mk "/w/dwi_up.mif".data ".nii.gz".data) (MifM.mk "/w/mask.mif".data ".nii.gz".data) false false false true).rdCon)] ∧
    (scAllFour "/w".data (ReconM.mk (niiFileInit "/w/dwi.nii.gz".data) "/w/dwi.bval".data "/w/dwi.bvec".data "/w/dwi.json".data) "/w/tracks.tck".data "/w/labels_up.mif".data (MifM.mk "/w/dwi_up.mif".data ".nii.gz".data) (MifM.mk "/w/mask.mif".data ".nii.gz".data) false false false true).st.events =
      (computeDiffMetricsE zeroOracle ⟨[], none⟩ "/w".data (ReconM.mk (niiFileInit "/w/dwi.nii.gz".data) "/w/dwi.bval".data "/w/dwi.bvec".data "/w/dwi.json".data) (MifM.mk "/w/dwi_up.mif".data ".nii.gz".data) (some (MifM.mk "/w/mask.mif".data ".nii.gz".data))
        true true true true true false).events
      ++ [Event.run (unweightedCtmCmd "/w/tracks.tck".data "/w/labels_up.mif".data (scAllFour "/w".data (ReconM.mk (niiFileInit "/w/dwi.nii.gz".data) "/w/dwi.bval".data "/w/dwi.bvec".data "/w/dwi.json".data) "/w/tracks.tck".data "/w/labels_up.mif".data (MifM.mk "/w/dwi_up.mif".data ".nii.gz".data) (MifM.mk "/w/mask.mif".data ".nii.gz".data) false false false true).connectome
            false false false) [(scAllFour "/w".data (ReconM.mk (niiFileInit "/w/dwi.nii.gz".data) "/w/dwi.bval".data "/w/dwi.bvec".data "/w/dwi.json".data) "/w/tracks.tck".data "/w/labels_up.mif".data (MifM.mk "/w/dwi_up.mif".data ".nii.gz".data) (MifM.mk "/w/mask.mif".data ".nii.gz".data) false false false true).connectome]]
      ++ (scAllFour "/w".data (ReconM.mk (niiFileInit "/w/dwi.nii.gz".data) "/w/dwi.bval".data "/w/dwi.bvec".data "/w/dwi.json".data) "/w/tracks.tck".data "/w/labels_up.mif".data (MifM.mk "/w/dwi_up.mif".data ".nii.gz".data) (MifM.mk "/w/mask.mif".data ".nii.gz".data) false false false true).metricPairs.flatMap
          (passBlock "/w/tracks.tck".data "/w/labels_up.mif".data (scAllFour "/w".data (ReconM.mk (niiFileInit "/w/dwi.nii.gz".data) "/w/dwi.bval".data "/w/dwi.bvec".data "/w/dwi.json".data) "/w/tracks.tck".data "/w/labels_up.mif".data (MifM.mk "/w/dwi_up.mif".data ".nii.gz".data) (MifM.mk "/w/mask.mif".data ".nii.gz".data) false false false true).tmpMetric false false
            false) ∧
    ((scAllFour "/w".data (ReconM.mk (niiFileInit "/w/dwi.nii.gz".data) "/w/dwi.bval".data "/w/dwi.bvec".data "/w/dwi.json".data) "/w/tracks.tck".data "/w/labels_up.mif".data (MifM.mk "/w/dwi_up.mif".data ".nii.gz".data) (MifM.mk "/w/mask.mif".data ".nii.gz".data) false false false true).faCon ≠ (scAllFour "/w".data (ReconM.mk (niiFileInit "/w/dwi.nii.gz".data) "/w/dwi.bval".data "/w/dwi.bvec".data "/w/dwi.json".data) "/w/tracks.tck".data "/w/labels_up.mif".data (MifM.mk "/w/dwi_up.mif".data ".nii.gz".data) (MifM.mk "/w/mask.mif".data ".nii.gz".data) false false false true).mdCon ∧
     (scAllFour "/w".data (ReconM.mk (niiFileInit "/w/dwi.nii.gz".data) "/w/dwi.bval".data "/w/dwi.bvec".data "/w/dwi.json".data) "/w/tracks.tck".data "/w/labels_up.mif".data (MifM.mk "/w/dwi_up.mif".data ".nii.gz".data) (MifM.mk "/w/mask.mif".data ".nii.gz".data) false false false true).faCon ≠ (scAllFour "/w".data (ReconM.mk (niiFileInit "/w/dwi.nii.gz".data) "/w/dwi.bval".data "/w/dwi.bvec".data "/w/dwi.json".data) "/w/tracks.tck".data "/w/labels_up.mif".data (MifM.mk "/w/dwi_up.mif".data ".nii.gz".data) (MifM.mk "/w/mask.mif".data ".nii.gz".data) false false false true).adCon ∧
     (scAllFour "/w".data (ReconM.mk (niiFileInit "/w/dwi.nii.gz".data) "/w/dwi.bval".data "/w/dwi.bvec".data "/w/dwi.json".data) "/w/tracks.tck".data "/w/labels_up.mif".data (MifM.mk "/w/dwi_up.mif".data ".nii.gz".data) (MifM.mk "/w/mask.mif".data ".nii.gz".data) false false false true).faCon ≠ (scAllFour "/w".data (ReconM.mk (niiFileInit "/w/dwi.nii.gz".data) "/w/dwi.bval".data "/w/dwi.bvec".data "/w/dwi.json".data) "/w/tracks.tck".data "/w/labels_up.mif".data (MifM.mk "/w/dwi_up.mif".data ".nii.gz".data) (MifM.mk "/w/mask.mif".data ".nii.gz".data) false false false true).rdCon ∧
     (scAllFour "/w".data (ReconM.mk (niiFileInit "/w/dwi.nii.gz".data) "/w/dwi.bval".data "/w/dwi.bvec".data "/w/dwi.json".data) "/w/tracks.tck".data "/w/labels_up.mif".data (MifM.mk "/w/dwi_up.mif".data ".nii.gz".data) (MifM.mk "/w/mask.mif".data ".nii.gz".data) false false false true).mdCon ≠ (scAllFour "/w".data (ReconM.mk (niiFileInit "/w/dwi.nii.gz".data) "/w/dwi.bval".data "/w/dwi.bvec".data "/w/dwi.json".data) "/w/tracks.tck".data "/w/labels_up.mif".data (MifM.mk "/w/dwi_up.mif".data ".nii.gz".data) (MifM.mk "/w/mask.mif".data ".nii.gz".data) false false false true).adCon ∧
     (scAllFour "/w".data (ReconM.mk (niiFileInit "/w/dwi.nii.gz".data) "/w/dwi.bval".data "/w/dwi.bvec".data "/w/dwi.json".data) "/w/tracks.tck".data "/w/labels_up.mif".data (MifM.mk "/w/dwi_up.mif".data ".nii.gz".data) (MifM.mk "/w/mask.mif".data ".nii.gz".data) false false false true).mdCon ≠ (scAllFour "/w".data (ReconM.mk (niiFileInit "/w/dwi.nii.gz".data) "/w/dwi.bval".data "/w/dwi.bvec".data "/w/dwi.json".data) "/w/tracks.tck".data "/w/labels_up.mif".data (MifM.mk "/w/dwi_up.mif".data ".nii.gz".data) (MifM.mk "/w/mask.mif".data ".nii.gz".data) false false false true).rdCon ∧
     (scAllFour "/w".data (ReconM.mk (niiFileInit "/w/dwi.nii.gz".data) "/w/dwi.bval".data "/w/dwi.bvec".data "/w/dwi.json".data) "/w/tracks.tck".data "/w/labels_up.mif".data (MifM.mk "/w/dwi_up.mif".data ".nii.gz".data) (MifM.mk "/w/mask.mif".data ".nii.gz".data) false false false true).adCon ≠ (scAllFour "/w".data (ReconM.mk (niiFileInit "/w/dwi.nii.gz".data) "/w/dwi.bval".data "/w/dwi.bvec".data "/w/dwi.json".data) "/w/tracks.tck".data "/w/labels_up.mif".data (MifM.mk "/w/dwi_up.mif".data ".nii.gz".data) (MifM.mk "/w/mask.mif".data ".nii.gz".data) false false false true).rdCon) ∧
    ((scAllFour "/w".data (ReconM.mk (niiFileInit "/w/dwi.nii.gz".data) "/w/dwi.bval".data "/w/dwi.bvec".data "/w/dwi.json".data) "/w/tracks.tck".data "/w/labels_up.mif".data (MifM.mk "/w/dwi_up.mif".data ".nii.gz".data) (MifM.mk "/w/mask.mif".data ".nii.gz".data) false false false true).faCon ≠ (scAllFour "/w".data (ReconM.mk (niiFileInit "/w/dwi.nii.gz".data) "/w/dwi.bval".data "/w/dwi.bvec".data "/w/dwi.json".data) "/w/tracks.tck".data "/w/labels_up.mif".data (MifM.mk "/w/dwi_up.mif".data ".nii.gz".data) (MifM.mk "/w/mask.mif".data ".nii.gz".data) false false false true).tmpMetric ∧
     (scAllFour "/w".data (ReconM.mk (niiFileInit "/w/dwi.nii.gz".data) "/w/dwi.bval".data "/w/dwi.bvec".data "/w/dwi.json".data) "/w/tracks.tck".data "/w/labels_up.mif".data (MifM.mk "/w/dwi_up.mif".data ".nii.gz".data) (MifM.mk "/w/mask.mif".data ".nii.gz".data) false false false true).mdCon ≠ (scAllFour "/w".data (ReconM.mk (niiFileInit "/w/dwi.nii.gz".data) "/w/dwi.bval".data "/w/dwi.bvec".data "/w/dwi.json".data) "/w/tracks.tck".data "/w/labels_up.mif".data (MifM.mk "/w/dwi_up.mif".data ".nii.gz".data) (MifM.mk "/w/mask.mif".data ".nii.gz".data) false false false true).tmpMetric ∧
     (scAllFour "/w".data (ReconM.mk (niiFileInit "/w/dwi.nii.gz".data) "/w/dwi.bval".data "/w/dwi.bvec".data "/w/dwi.json".data) "/w/tracks.tck".data "/w/labels_up.mif".data (MifM.mk "/w/dwi_up.mif".data ".nii.gz".data) (MifM.mk "/w/mask.mif".data ".nii.gz".data) false false false true).adCon ≠ (scAllFour "/w".data (ReconM.mk (niiFileInit "/w/dwi.nii.gz".data) "/w/dwi.bval".data "/w/dwi.bvec".data "/w/dwi.json".data) "/w/tracks.tck".data "/w/labels_up.mif".data (MifM.mk "/w/dwi_up.mif".data ".nii.gz".data) (MifM.mk "/w/mask.mif".data ".nii.gz".data) false false false true).tmpMetric ∧
     (scAllFour "/w".data (ReconM.mk (niiFileInit "/w/dwi.nii.gz".data) "/w/dwi.bval".data "/w/dwi.bvec".data "/w/dwi.json".data) "/w/tracks.tck".data "/w/labels_up.mif".data (MifM.mk "/w/dwi_up.mif".data ".nii.gz".data) (MifM.mk "/w/mask.mif".data ".nii.gz".data) false false false true).rdCon ≠ (scAllFour "/w".data (ReconM.mk (niiFileInit "/w/dwi.nii.gz".data) "/w/dwi.bval".data "/w/dwi.bvec".data "/w/dwi.json".data) "/w/tracks.tck".data "/w/labels_up.mif".data (MifM.mk "/w/dwi_up.mif".data ".nii.gz".data) (MifM.mk "/w/mask.mif".data ".nii.gz".data) false false false true).tmpMetric) ∧
    ((diffMetricNames "/w".data (ReconM.mk (niiFileInit "/w/dwi.nii.gz".data) "/w/dwi.bval".data "/w/dwi.bvec".data "/w/dwi.json".data) (MifM.mk "/w/dwi_up.mif".data ".nii.gz".data)).faMif.file ≠ (diffMetricNames "/w".data (ReconM.mk (niiFileInit "/w/dwi.nii.gz".data) "/w/dwi.bval".data "/w/dwi.bvec".data "/w/dwi.json".data) (MifM.mk "/w/dwi_up.mif".data ".nii.gz".data)).mdMif.file ∧
     (diffMetricNames "/w".data (ReconM.mk (niiFileInit "/w/dwi.nii.gz".data) "/w/dwi.bval".data "/w/dwi.bvec".data "/w/dwi.json".data) (MifM.mk "/w/dwi_up.mif".data ".nii.gz".data)).faMif.file ≠ (diffMetricNames "/w".data (ReconM.mk (niiFileInit "/w/dwi.nii.gz".data) "/w/dwi.bval".data "/w/dwi.bvec".data "/w/dwi.json".data) (MifM.mk "/w/dwi_up.mif".data ".nii.gz".data)).adMif.file ∧
     (diffMetricNames "/w".data (ReconM.mk (niiFileInit "/w/dwi.nii.gz".data) "/w/dwi.bval".data "/w/dwi.bvec".data "/w/dwi.json".data) (MifM.mk "/w/dwi_up.mif".data ".nii.gz".data)).faMif.file ≠ (diffMetricNames "/w".data (ReconM.mk (niiFileInit "/w/dwi.nii.gz".data) "/w/dwi.bval".data "/w/dwi.bvec".data "/w/dwi.json".data) (MifM.mk "/w/dwi_up.mif".data ".nii.gz".data)).rdMif.file ∧
     (diffMetricNames "/w".data (ReconM.mk (niiFileInit "/w/dwi.nii.gz".data) "/w/dwi.bval".data "/w/dwi.bvec".data "/w/dwi.json".data) (MifM.mk "/w/dwi_up.mif".data ".nii.gz".data)).mdMif.file ≠ (diffMetricNames "/w".data (ReconM.mk (niiFileInit "/w/dwi.nii.gz".data) "/w/dwi.bval".data "/w/dwi.bvec".data "/w/dwi.json".data) (MifM.mk "/w/dwi_up.mif".data ".nii.gz".data)).adMif.file ∧
     (diffMetricNames "/w".data (ReconM.mk (niiFileInit "/w/dwi.nii.gz".data) "/w/dwi.bval".data "/w/dwi.bvec".data "/w/dwi.json".data) (MifM.mk "/w/dwi_up.mif".data ".nii.gz".data)).mdMif.file ≠ (diffMetricNames "/w".data (ReconM.mk (niiFileInit "/w/dwi.nii.gz".data) "/w/dwi.bval".data "/w/dwi.bvec".data "/w/dwi.json".data) (MifM.mk "/w/dwi_up.mif".data ".nii.gz".data)).rdMif.file ∧
     (diffMetricNames "/w".data (ReconM.mk (niiFileInit "/w/dwi.nii.gz".data) "/w/dwi.bval".data "/w/dwi.bvec".data "/w/dwi.json".data) (MifM.mk "/w/dwi_up.mif".data ".nii.gz".data)).adMif.file ≠ (diffMetricNames "/w".data (ReconM.mk (niiFileInit "/w/dwi.nii.gz".data) "/w/dwi.bval".data "/w/dwi.bvec".data "/w/dwi.json".data) (MifM.mk "/w/dwi_up.mif".data ".nii.gz".data)).rdMif.file) ∧
    (∀ fs0 : List Str,
      (scAllFour "/w".data (ReconM.mk (niiFileInit "/w/dwi.nii.gz".data) "/w/dwi.bval".data "/w/dwi.bvec".data "/w/dwi.json".data) "/w/tracks.tck".data "/w/labels_up.mif".data (MifM.mk "/w/dwi_up.mif".data ".nii.gz".data) (MifM.mk "/w/mask.mif".data ".nii.gz".data) false false false true).faCon ∈ applyEvents fs0 (scAllFour "/w".data (ReconM.mk (niiFileInit "/w/dwi.nii.gz".data) "/w/dwi.bval".data "/w/dwi.bvec".data "/w/dwi.json".data) "/w/tracks.tck".data "/w/labels_up.mif".data (MifM.mk "/w/dwi_up.mif".data ".nii.gz".data) (MifM.mk "/w/mask.mif".data ".nii.gz".data) false false false true).st.events ∧
      (scAllFour "/w".data (ReconM.mk (niiFileInit "/w/dwi.nii.gz".data) "/w/dwi.bval".data "/w/dwi.bvec".data "/w/dwi.json".data) "/w/tracks.tck".data "/w/labels_up.mif".data (MifM.mk "/w/dwi_up.mif".data ".nii.gz".data) (MifM.mk "/w/mask.mif".data ".nii.gz".data) false false false true).mdCon ∈ applyEvents fs0 (scAllFour "/w".data (ReconM.mk (niiFileInit "/w/dwi.nii.gz".data) "/w/dwi.bval".data "/w/dwi.bvec".data "/w/dwi.json".data) "/w/tracks.tck".data "/w/labels_up.mif".data (MifM.mk "/w/dwi_up.mif".data ".nii.gz".data) (MifM.mk "/w/mask.mif".data ".nii.gz".data) false false false true).st.events ∧
      (scAllFour "/w".data (ReconM.mk (niiFileInit "/w/dwi.nii.gz".data) "/w/dwi.bval".data "/w/dwi.bvec".data "/w/dwi.json".data) "/w/tracks.tck".data "/w/labels_up.mif".data (MifM.mk "/w/dwi_up.mif".data ".nii.gz".data) (MifM.mk "/w/mask.mif".data ".nii.gz".data) false false false true).adCon ∈ applyEvents fs0 (scAllFour "/w".data (ReconM.mk (niiFileInit "/w/dwi.nii.gz".data) "/w/dwi.bval".data "/w/dwi.bvec".data "/w/dwi.json".data) "/w/tracks.tck".data "/w/labels_up.mif".data (MifM.mk "/w/dwi_up.mif".data ".nii.gz".data) (MifM.mk "/w/mask.mif".data ".nii.gz".data) false false false true).st.events ∧
      (scAllFour "/w".data (ReconM.mk (niiFileInit "/w/dwi.nii.gz".data) "/w/dwi.bval".data "/w/dwi.bvec".data "/w/dwi.json".data) "/w/tracks.tck".data "/w/labels_up.mif".data (MifM.mk "/w/dwi_up.mif".data ".nii.gz".data) (MifM.mk "/w/mask.mif".data ".nii.gz".data) false false false true).rdCon ∈ applyEvents fs0 (scAllFour "/w".data (ReconM.mk (niiFileInit "/w/dwi.nii.gz".data) "/w/dwi.bval".data "/w/dwi.bvec".data "/w/dwi.json".data) "/w/tracks.tck".data "/w/labels_up.mif".data (MifM.mk "/w/dwi_up.mif".data ".nii.gz".data) (MifM.mk "/w/mask.mif".data ".nii.gz".data) false false false true).st.events ∧
      (scAllFour "/w".data (ReconM.mk (niiFileInit "/w/dwi.nii.gz".data) "/w/dwi.bval".data "/w/dwi.bvec".data "/w/dwi.json".data) "/w/tracks.tck".data "/w/labels_up.mif".data (MifM.mk "/w/dwi_up.mif".data ".nii.gz".data) (MifM.mk "/w/mask.mif".data ".nii.gz".data) false false false true).tmpMetric ∉ applyEvents fs0 (scAllFour "/w".data (ReconM.mk (niiFileInit "/w/dwi.nii.gz".data) "/w/dwi.bval".data "/w/dwi.bvec".data "/w/dwi.json".data) "/w/tracks.tck".data "/w/labels_up.mif".data (MifM.mk "/w/dwi_up.mif".data ".nii.gz".data) (MifM.mk "/w/mask.mif".data ".nii.gz".data) false false false true).st.events) :=
  c5_four_weighted_connectomes "/w".data (ReconM.mk (niiFileInit "/w/dwi.nii.gz".data) "/w/dwi.bval".data "/w/dwi.bvec".data "/w/dwi.json".data)
    "/w/tracks.tck".data "/w/labels_up.mif".data
    (MifM.mk "/w/dwi_up.mif".data ".nii.gz".data)
    (MifM.mk "/w/mask.mif".data ".nii.gz".data) false false false true
    (by decide) (by decide) (by decide) (by decide) (by decide)

/-! ## Claim C2: a failing metric-weighting pass aborts the loop -/

/-- An exit-status oracle under which every `tcksample` invocation exits
with status 1 and every other command succeeds: the failure mode of one
metric-weighting pass (xfm_tck.py line 1250). -/
def tcksampleFailOracle (cmd : List Str) : Int :=
  if cmd.head? = some "tcksample".data then 1 else 0

theorem tckFail_ne_head (a : Str) (l : List Str)
    (h : ¬ a = "tcksample".data) :
    tcksampleFailOracle (a :: l) = 0 := by
  simp [tcksampleFailOracle, h]

theorem tckFail_tcksample (tckF metricFile tmpMetric : Str) :
    tcksampleFailOracle (tcksampleCmd tckF metricFile tmpMetric) = 1 := by
  simp [tcksampleFailOracle, tcksampleCmd]

theorem runE_ok (oracle : List Str → Int) (t : ExecSt) (cmd outs : List Str)
    (ht : t.err = none) (h : oracle cmd = 0) :
    runE oracle t cmd outs = ⟨t.events ++ [Event.run cmd outs], none⟩ := by
  unfold runE
  rw [ht]
  simp [h]

theorem runE_fail (oracle : List Str → Int) (t : ExecSt) (cmd outs : List Str)
    (c : Int) (ht : t.err = none) (h : oracle cmd = c) (hc : ¬ c = 0) :
    runE oracle t cmd outs =
      ⟨t.events ++ [Event.run cmd outs, Event.logError cmd c],
        some ⟨cmd, c⟩⟩ := by
  unfold runE
  rw [ht]
  dsimp only
  rw [h, if_pos hc]

theorem runE_frozen (oracle : List Str → Int) (t : ExecSt) (cmd outs : List Str)
    (e : CmdExc) (ht : t.err = some e) :
    runE oracle t cmd outs = t := by
  unfold runE
  rw [ht]

theorem removeFileE_frozen (t : ExecSt) (f : Str) (e : CmdExc)
    (ht : t.err = some e) : removeFileE t f = t := by
  unfold removeFileE
  rw [ht]

theorem weightPassE_frozen (oracle : List Str → Int)
    (tckF labelsF tmpMetric : Str) (s z f : Bool) (t : ExecSt) (pr : Str × Str)
    (e : CmdExc) (ht : t.err = some e) :
    weightPassE oracle tckF labelsF tmpMetric s z f t pr = t := by
  unfold weightPassE
  dsimp only
  rw [runE_frozen _ _ _ _ _ ht, runE_frozen _ _ _ _ _ ht,
    removeFileE_frozen _ _ _ ht]

/-- Once a pass has raised, the rest of the metric-weighting loop does not
execute: the raised exception escapes the `for` loop. -/
theorem foldl_weightPassE_frozen (oracle : List Str → Int)
    (tckF labelsF tmpMetric : Str) (s z f : Bool) (pairs : List (Str × Str))
    (t : ExecSt) (e : CmdExc) (ht : t.err = some e) :
    pairs.foldl (weightPassE oracle tckF labelsF tmpMetric s z f) t = t := by
  induction pairs with
  | nil => rfl
  | cons pr rest ih =>
    rw [List.foldl_cons, weightPassE_frozen _ _ _ _ _ _ _ _ _ _ ht]
    exact ih

/-- The first metric-weighting pass under the failing oracle: the sampling
run is recorded, the error is logged, and the exception is raised before
the weighted connectome is assembled or the scratch file removed. -/
theorem weightPassE_tckFail_first (tckF labelsF tmpMetric : Str)
    (s z f : Bool) (t : ExecSt) (pr : Str × Str) (ht : t.err = none) :
    weightPassE tcksampleFailOracle tckF labelsF tmpMetric s z f t pr =
      ⟨t.events ++ [Event.run (tcksampleCmd tckF pr.1 tmpMetric) [tmpMetric],
          Event.logError (tcksampleCmd tckF pr.1 tmpMetric) 1],
        some ⟨tcksampleCmd tckF pr.1 tmpMetric, 1⟩⟩ := by
  unfold weightPassE
  dsimp only
  rw [runE_fail _ _ _ _ _ ht (tckFail_tcksample _ _ _) (by decide)]
  rw [runE_frozen _ _ _ _ _ rfl, removeFileE_frozen _ _ _ rfl]

/-- With `fa` and `md` enabled, the metric-map stage under the failing
oracle succeeds (its commands are not `tcksample`) and records the tensor
fit, the metric extraction, and the optional tensor cleanup. -/
theorem computeDiffMetricsE_tckFail (t : ExecSt) (ht : t.err = none)
    (cwd : Str) (r : ReconM) (dwi : MifM) (mask : Option MifM)
    (ad rd cleanup force : Bool) :
    computeDiffMetricsE tcksampleFailOracle t cwd r dwi mask true true ad rd
      cleanup force =
    ⟨t.events
      ++ [Event.run ("dwi2tensor".data :: dwi.file :: (diffMetricNames cwd r dwi).tensor.file ::
          ((match mask with
            | some m => ["-mask".data, m.file]
            | none => []) ++
           (if force then ["-force".data] else []))) [(diffMetricNames cwd r dwi).tensor.file],
          Event.run ("tensor2metric".data :: (diffMetricNames cwd r dwi).tensor.file ::
          "-adc".data :: (diffMetricNames cwd r dwi).mdMif.file ::
          "-fa".data :: (diffMetricNames cwd r dwi).faMif.file ::
          ((if ad then ["-ad".data, (diffMetricNames cwd r dwi).adMif.file] else []) ++
           (if rd then ["-rd".data, (diffMetricNames cwd r dwi).rdMif.file] else []))) ((diffMetricNames cwd r dwi).mdMif.file :: (diffMetricNames cwd r dwi).faMif.file ::
          ((if ad then [(diffMetricNames cwd r dwi).adMif.file] else []) ++
           (if rd then [(diffMetricNames cwd r dwi).rdMif.file] else [])))]
      ++ (if cleanup then [Event.removeFile (diffMetricNames cwd r dwi).tensor.file] else []),
      none⟩ := by
  unfold computeDiffMetricsE
  dsimp only
  simp only [eq_self_iff_true, if_true, List.cons_append, List.nil_append]
  have h1 : tcksampleFailOracle
      ("dwi2tensor".data :: dwi.file :: (diffMetricNames cwd r dwi).tensor.file ::
          ((match mask with
            | some m => ["-mask".data, m.file]
            | none => []) ++
           (if force then ["-force".data] else []))) = 0 :=
    tckFail_ne_head _ _ (by decide)
  have h2 : tcksampleFailOracle
      ("tensor2metric".data :: (diffMetricNames cwd r dwi).tensor.file ::
          "-adc".data :: (diffMetricNames cwd r dwi).mdMif.file ::
          "-fa".data :: (diffMetricNames cwd r dwi).faMif.file ::
          ((if ad then ["-ad".data, (diffMetricNames cwd r dwi).adMif.file] else []) ++
           (if rd then ["-rd".data, (diffMetricNames cwd r dwi).rdMif.file] else []))) = 0 :=
    tckFail_ne_head _ _ (by decide)
  rw [runE_ok _ _ _ _ ht h1]
  rw [runE_ok _ _ _ _ rfl h2]
  cases cleanup with
  | false => simp [List.append_assoc]
  | true =>
    rw [removeFileE_none _ rfl]
    simp [List.append_assoc]

theorem tckFail_unweighted (a b c : Str) (s z f : Bool) :
    tcksampleFailOracle (unweightedCtmCmd a b c s z f) = 0 := by
  unfold unweightedCtmCmd
  simp only [List.cons_append]
  exact tckFail_ne_head _ _ (by decide)

/-- Full state of `structural_connectome` under the failing oracle with
`fa` and `md` enabled: the metric maps and the unweighted connectome are
built, the first weighting pass fails at its `tcksample`, the error is
logged, the exception is raised, and nothing further executes. -/
theorem scTckFail_st (cwd : Str) (r : ReconM) (tckF labelsF : Str)
    (dwi : MifM) (mask : Option MifM)
    (symmetric zeroDiag ad rd cleanup force : Bool) :
    (structuralConnectomeE tcksampleFailOracle cwd r tckF labelsF dwi mask symmetric zeroDiag true true ad rd cleanup force).st =
    ⟨(computeDiffMetricsE tcksampleFailOracle ⟨[], none⟩ cwd r dwi mask
        true true ad rd cleanup force).events
      ++ [Event.run (unweightedCtmCmd tckF labelsF
            (structuralConnectomeE tcksampleFailOracle cwd r tckF labelsF dwi mask symmetric zeroDiag true true ad rd cleanup force).connectome symmetric zeroDiag force)
          [(structuralConnectomeE tcksampleFailOracle cwd r tckF labelsF dwi mask symmetric zeroDiag true true ad rd cleanup force).connectome]]
      ++ [Event.run (tcksampleCmd tckF (diffMetricNames cwd r dwi).faMif.file (structuralConnectomeE tcksampleFailOracle cwd r tckF labelsF dwi mask symmetric zeroDiag true true ad rd cleanup force).tmpMetric) [(structuralConnectomeE tcksampleFailOracle cwd r tckF labelsF dwi mask symmetric zeroDiag true true ad rd cleanup force).tmpMetric],
          Event.logError (tcksampleCmd tckF (diffMetricNames cwd r dwi).faMif.file (structuralConnectomeE tcksampleFailOracle cwd r tckF labelsF dwi mask symmetric zeroDiag true true ad rd cleanup force).tmpMetric) 1],
      some ⟨tcksampleCmd tckF (diffMetricNames cwd r dwi).faMif.file (structuralConnectomeE tcksampleFailOracle cwd r tckF labelsF dwi mask symmetric zeroDiag true true ad rd cleanup force).tmpMetric, 1⟩⟩ := by
  unfold structuralConnectomeE
  dsimp only
  simp only [eq_self_iff_true, true_or, if_true, List.cons_append,
    List.nil_append]
  rw [computeDiffMetricsE_tckFail (⟨[], none⟩ : ExecSt) rfl]
  rw [runE_ok _ _ _ _ rfl (tckFail_unweighted _ _ _ _ _ _)]
  rw [List.foldl_cons]
  rw [weightPassE_tckFail_first _ _ _ _ _ _ _ _ rfl]
  rw [foldl_weightPassE_frozen _ _ _ _ _ _ _ _ _ _ rfl]

theorem weighted_ne_cons (t l o tm : Str) (s z f : Bool) (a : Str)
    (rest : List Str) (o1 o2 : List Str)
    (h : ¬ "tck2connectome".data = a) :
    ¬ (Event.run (weightedCtmCmd t l o tm s z f) o1 =
        Event.run (a :: rest) o2) := by
  intro he
  injection he with hc _
  unfold weightedCtmCmd at hc
  simp only [List.cons_append] at hc
  injection hc with h1 _
  exact h h1

theorem weighted_ne_tcksample (t l o tm : Str) (s z f : Bool)
    (t2 mf tmp : Str) (o1 o2 : List Str) :
    ¬ (Event.run (weightedCtmCmd t l o tm s z f) o1 =
        Event.run (tcksampleCmd t2 mf tmp) o2) := by
  intro he
  injection he with hc _
  unfold weightedCtmCmd tcksampleCmd at hc
  simp only [List.cons_append] at hc
  injection hc with h1 _
  exact absurd h1 (by decide)

/-- A weighted `tck2connectome` invocation never coincides with the
unweighted one built from the same flags: the `-scale_file` arguments make
it four entries longer. -/
theorem weighted_ne_unweighted (t l o1 tm o2 : Str) (s z f : Bool) :
    ¬ (Event.run (weightedCtmCmd t l o1 tm s z f) [o1] =
        Event.run (unweightedCtmCmd t l o2 s z f) [o2]) := by
  intro he
  injection he with hc _
  have hl := congrArg List.length hc
  cases s <;> cases z <;> cases f <;>
    simp [weightedCtmCmd, unweightedCtmCmd] at hl

theorem getLast?_append_two (l : List Event) (a b : Event) :
    (l ++ [a, b]).getLast? = some b := by
  rw [show [a, b] = [a] ++ [b] from rfl, ← List.append_assoc,
    List.getLast?_concat]

/-- Claim C2: when a metric-weighting pass of `structural_connectome`
fails (here: its `tcksample` exits non-zero, with `fa` and `md` enabled),
the failure is reported — the error is logged and the raised
`RuntimeError` carries the failing command and status — and the
unweighted connectome, built before the loop, is in the trace; but the
raise aborts the routine: the log entry is the final event and the
remaining enabled pass's weighted `tck2connectome` never executes, so the
remaining metric passes do not complete.  This corrects the claim. -/
theorem c2_failed_pass_reports_and_aborts (cwd : Str) (r : ReconM)
    (tckF labelsF : Str) (dwi : MifM) (mask : Option MifM)
    (symmetric zeroDiag ad rd cleanup force : Bool) :
    (structuralConnectomeE tcksampleFailOracle cwd r tckF labelsF dwi mask symmetric zeroDiag true true ad rd cleanup force).st.err = some ⟨tcksampleCmd tckF (diffMetricNames cwd r dwi).faMif.file (structuralConnectomeE tcksampleFailOracle cwd r tckF labelsF dwi mask symmetric zeroDiag true true ad rd cleanup force).tmpMetric, 1⟩ ∧
    Event.run (unweightedCtmCmd tckF labelsF (structuralConnectomeE tcksampleFailOracle cwd r tckF labelsF dwi mask symmetric zeroDiag true true ad rd cleanup force).connectome symmetric
        zeroDiag force) [(structuralConnectomeE tcksampleFailOracle cwd r tckF labelsF dwi mask symmetric zeroDiag true true ad rd cleanup force).connectome] ∈ (structuralConnectomeE tcksampleFailOracle cwd r tckF labelsF dwi mask symmetric zeroDiag true true ad rd cleanup force).st.events ∧
    (structuralConnectomeE tcksampleFailOracle cwd r tckF labelsF dwi mask symmetric zeroDiag true true ad rd cleanup force).st.events.getLast? = some (Event.logError (tcksampleCmd tckF (diffMetricNames cwd r dwi).faMif.file (structuralConnectomeE tcksampleFailOracle cwd r tckF labelsF dwi mask symmetric zeroDiag true true ad rd cleanup force).tmpMetric) 1) ∧
    Event.run (weightedCtmCmd tckF labelsF (structuralConnectomeE tcksampleFailOracle cwd r tckF labelsF dwi mask symmetric zeroDiag true true ad rd cleanup force).mdCon (structuralConnectomeE tcksampleFailOracle cwd r tckF labelsF dwi mask symmetric zeroDiag true true ad rd cleanup force).tmpMetric symmetric zeroDiag force) [(structuralConnectomeE tcksampleFailOracle cwd r tckF labelsF dwi mask symmetric zeroDiag true true ad rd cleanup force).mdCon] ∉ (structuralConnectomeE tcksampleFailOracle cwd r tckF labelsF dwi mask symmetric zeroDiag true true ad rd cleanup force).st.events := by
  refine ⟨?_, ?_, ?_, ?_⟩
  · rw [scTckFail_st]
  · rw [scTckFail_st]
    exact List.mem_append_left _
      (List.mem_append_right _ (List.mem_cons_self _ _))
  · rw [scTckFail_st]
    exact getLast?_append_two _ _ _
  · rw [scTckFail_st]
    dsimp only
    rw [computeDiffMetricsE_tckFail (⟨[], none⟩ : ExecSt) rfl]
    dsimp only
    simp only [List.nil_append]
    intro h
    rcases List.mem_append.mp h with h1 | h1
    · rcases List.mem_append.mp h1 with h2 | h2
      · rcases List.mem_append.mp h2 with h3 | h3
        · simp only [List.mem_cons, List.not_mem_nil, or_false] at h3
          rcases h3 with h3 | h3
          · exact weighted_ne_cons _ _ _ _ _ _ _ _ _ _ _ (by decide) h3
          · exact weighted_ne_cons _ _ _ _ _ _ _ _ _ _ _ (by decide) h3
        · cases cleanup with
          | false => simp at h3
          | true =>
            simp only [if_true, List.mem_cons, List.not_mem_nil,
              or_false] at h3
            simp at h3
      · simp only [List.mem_cons, List.not_mem_nil, or_false] at h2
        exact weighted_ne_unweighted _ _ _ _ _ _ _ _ h2
    · simp only [List.mem_cons, List.not_mem_nil, or_false] at h1
      rcases h1 with h1 | h1
      · exact weighted_ne_tcksample _ _ _ _ _ _ _ _ _ _ _ _ h1
      · simp at h1

/-- Counterexample to claim C2 as stated: in a run with the `fa` and `md`
weighting flags enabled whose `fa` pass fails (its `tcksample` exits with
status 1), the raised exception is still pending when
`structural_connectome` returns and the `md` pass's weighted
`tck2connectome` invocation never executes — the remaining enabled metric
passes do not complete. -/
theorem c2_counterexample :
    (structuralConnectomeE tcksampleFailOracle "/w".data
      (ReconM.mk (niiFileInit "/w/dwi.nii.gz".data) "/w/dwi.bval".data
        "/w/dwi.bvec".data "/w/dwi.json".data)
      "/w/tracks.tck".data "/w/labels_up.mif".data
      (MifM.mk "/w/dwi_up.mif".data ".nii.gz".data)
      (some (MifM.mk "/w/mask.mif".data ".nii.gz".data))
      false false true true false false true false).st.err ≠ none ∧
    Event.run (weightedCtmCmd "/w/tracks.tck".data "/w/labels_up.mif".data
        (structuralConnectomeE tcksampleFailOracle "/w".data
      (ReconM.mk (niiFileInit "/w/dwi.nii.gz".data) "/w/dwi.bval".data
        "/w/dwi.bvec".data "/w/dwi.json".data)
      "/w/tracks.tck".data "/w/labels_up.mif".data
      (MifM.mk "/w/dwi_up.mif".data ".nii.gz".data)
      (some (MifM.mk "/w/mask.mif".data ".nii.gz".data))
      false false true true false false true false).mdCon (structuralConnectomeE tcksampleFailOracle "/w".data
      (ReconM.mk (niiFileInit "/w/dwi.nii.gz".data) "/w/dwi.bval".data
        "/w/dwi.bvec".data "/w/dwi.json".data)
      "/w/tracks.tck".data "/w/labels_up.mif".data
      (MifM.mk "/w/dwi_up.mif".data ".nii.gz".data)
      (some (MifM.mk "/w/mask.mif".data ".nii.gz".data))
      false false true true false false true false).tmpMetric false false false)
      [(structuralConnectomeE tcksampleFailOracle "/w".data
      (ReconM.mk (niiFileInit "/w/dwi.nii.gz".data) "/w/dwi.bval".data
        "/w/dwi.bvec".data "/w/dwi.json".data)
      "/w/tracks.tck".data "/w/labels_up.mif".data
      (MifM.mk "/w/dwi_up.mif".data ".nii.gz".data)
      (some (MifM.mk "/w/mask.mif".data ".nii.gz".data))
      false false true true false false true false).mdCon] ∉ (structuralConnectomeE tcksampleFailOracle "/w".data
      (ReconM.mk (niiFileInit "/w/dwi.nii.gz".data) "/w/dwi.bval".data
        "/w/dwi.bvec".data "/w/dwi.json".data)
      "/w/tracks.tck".data "/w/labels_up.mif".data
      (MifM.mk "/w/dwi_up.mif".data ".nii.gz".data)
      (some (MifM.mk "/w/mask.mif".data ".nii.gz".data))
      false false true true false false true false).st.events := by
  decide
